import Mathlib

/-!
# bm_service: service registry and request dispatch

A shallow embedding of `middleware/bm_service.c`.

* A `const char *` / `const uint8_t *` operand is the list of bytes stored from the
  pointer on; reading past the end of the list yields the NUL byte.  Lengths travel
  separately, as in the C signatures, and are never derived from the list.
* The linked list `BM_SERVICE_CONTEXT.service_list` is a `List`, head first.
* A function pointer is its address (`0` is `NULL`); the code behind an address is
  looked up in a table of handler behaviours.
* Calls into the operating system and the transport (`bm_semaphore_take`,
  `bm_malloc`, `bm_sub_wl`, `bm_unsub_wl`) get their outcome from an `Env` record;
  every such call and every handler invocation is appended to a trace of `Event`s.
* `size_t` addition wraps: the sum `service_strlen + strlen(BM_SERVICE_REQ_STR)` which
  the callback compares with `topic_len` has a full `size_t` operand and is taken modulo
  `SIZE_MAX + 1`, as is the converted `topic_len`.  Lengths handed on to `bm_malloc`,
  `bm_sub_wl`, `bm_unsub_wl` and `bm_pub_wl`, whose prototypes are in headers not at
  hand, and the sum with the header field `data_size`, whose width is declared there,
  are recorded as computed in `Nat`; so is the capacity
  `MAX_BM_SERVICE_DATA_SIZE - sizeof(BmServiceReplyDataHeader)`, which is the C value
  whenever the header fits the buffer.
-/

namespace BmService

/-! ## Constants of `bm_service_common.h` -/

/-- Constants and structure sizes which `bm_service.c` reads from
`bm_service_common.h` and `bm_config.h`, and the largest `size_t` value of the
platform; their values are parameters of the model. -/
structure BmServiceConfig where
  BM_SERVICE_REQ_STR : List Nat
  BM_SERVICE_REP_STR : List Nat
  MAX_BM_SERVICE_DATA_SIZE : Nat
  sizeof_BmServiceRequestDataHeader : Nat
  sizeof_BmServiceReplyDataHeader : Nat
  BM_COMMON_PUB_SUB_VERSION : Nat
  SIZE_MAX : Nat
deriving DecidableEq, Repr

/-- A value as a `size_t`: reduced modulo `SIZE_MAX + 1`. -/
def to_size_t (cfg : BmServiceConfig) (n : Nat) : Nat :=
  n % (cfg.SIZE_MAX + 1)

/-! ## C string primitives -/

/-- The byte `*p` read through a `const char *`: the first byte of the list, NUL past
its end. -/
def deref : List Nat → Nat
  | [] => 0
  | c :: _ => c

/-- The libc `strlen`: number of bytes before the first NUL. -/
def strlen : List Nat → Nat
  | [] => 0
  | c :: cs => if c = 0 then 0 else strlen cs + 1

/-- The libc `strncmp`: compares at most `n` bytes, stops after a NUL common to both
operands, returns the difference of the first pair of differing bytes. -/
def strncmp : List Nat → List Nat → Nat → Int
  | _, _, 0 => 0
  | s1, s2, n + 1 =>
    if deref s1 ≠ deref s2 then (deref s1 : Int) - (deref s2 : Int)
    else if deref s1 = 0 then 0
    else strncmp s1.tail s2.tail n

/-- The bytes `memcpy(dst, src, n)` stores at `dst`. -/
def memcpy (src : List Nat) : Nat → List Nat
  | 0 => []
  | n + 1 => deref src :: memcpy src.tail n

/-! ## Data model -/

/-- One registration: `struct BmServiceListElem` without its `next` link. -/
structure BmServiceListElem where
  service : List Nat
  service_strlen : Nat
  service_handler : Nat
deriving DecidableEq, Repr

/-- The process-wide `BM_SERVICE_CONTEXT`: the list head and the state of the
semaphore `lock` (`true` while it is taken). -/
structure BmServiceContext where
  service_list : List BmServiceListElem
  lock_taken : Bool
deriving DecidableEq, Repr

/-- The memory at the `data` pointer of a delivery, read through
`BmServiceRequestDataHeader *`: the two header fields and the bytes after them. -/
structure BmServiceRequestDataHeader where
  id : Nat
  data_size : Nat
  data : List Nat
deriving DecidableEq, Repr

/-- What a handler leaves behind: its return value, the value stored through
`buffer_len`, and the contents of the reply data region. -/
structure HandlerReturn where
  rval : Bool
  reply_len : Nat
  reply_data : List Nat
deriving DecidableEq, Repr

/-- Behaviour of a `BmServiceHandler`, applied to `service_strlen`, `service`,
`req_data_len`, `req_data` and the incoming value of `*buffer_len`. -/
abbrev BmServiceHandler := Nat → List Nat → Nat → List Nat → Nat → HandlerReturn

/-- One call of `bm_pub_wl`: topic, reply header fields, reply payload and the
length, type and version arguments. -/
structure PubRecord where
  topic : List Nat
  topic_len : Nat
  target_node_id : Nat
  id : Nat
  data_size : Nat
  data : List Nat
  len : Nat
  msg_type : Nat
  version : Nat
deriving DecidableEq, Repr

/-- One invocation of a service handler with its arguments and what it returned. -/
structure CallRecord where
  handler : Nat
  service_strlen : Nat
  service : List Nat
  req_data_len : Nat
  req_data : List Nat
  buffer_len : Nat
  ret : HandlerReturn
deriving DecidableEq, Repr

/-- The callbacks this module hands to the transport: only the dispatch callback. -/
inductive BmCallback where
  | service_request_received_cb
deriving DecidableEq, Repr

/-- Observable steps of the three entry points, in program order.  `sub_wl` and
`unsub_wl` carry the three arguments of the transport call and its outcome. -/
inductive Event where
  | sem_take (ok : Bool)
  | sem_give
  | sub_wl (topic : List Nat) (topic_len : Nat) (cb : BmCallback) (ok : Bool)
  | unsub_wl (topic : List Nat) (topic_len : Nat) (cb : BmCallback) (ok : Bool)
  | debug_data_len
  | debug_topic_len
  | memset_null
  | handler_call (c : CallRecord)
  | pub_wl (p : PubRecord)
deriving DecidableEq, Repr

/-- Outcomes of the external calls made during one operation (`true` is `BmOK`,
respectively a non-NULL pointer). -/
structure Env where
  bm_semaphore_take : Bool
  bm_malloc_list_elem : Bool
  bm_malloc_topic_str : Bool
  bm_sub_wl : Bool
  bm_unsub_wl : Bool
  bm_malloc_reply_data : Bool
  bm_malloc_pub_topic : Bool
deriving DecidableEq, Repr

/-- Result of an operation: return value, context afterwards, events issued. -/
structure Outcome where
  rval : Bool
  ctx : BmServiceContext
  trace : List Event
deriving DecidableEq, Repr

/-! ## The static helpers -/

/-- The `_service_list_add_service` walk to the tail of the list. -/
def _service_list_add_service (list : List BmServiceListElem)
    (list_elem : Option BmServiceListElem) : List BmServiceListElem :=
  match list_elem with
  | none => list
  | some e =>
    match list with
    | [] => [e]
    | current :: next => current :: _service_list_add_service next (some e)

/-- The `_service_create_list_elem` allocation and field initialisation. -/
def _service_create_list_elem (env : Env) (service_strlen : Nat) (service : List Nat)
    (service_handler : Nat) : Option BmServiceListElem :=
  if env.bm_malloc_list_elem then
    some { service := service, service_strlen := service_strlen,
           service_handler := service_handler }
  else none

/-- The `_service_sub_unsub_to_req_topic` helper: returns `rval` and the transport
call it made, if any. -/
def _service_sub_unsub_to_req_topic (cfg : BmServiceConfig) (env : Env)
    (service_strlen : Nat) (service : List Nat) (sub : Bool) : Bool × List Event :=
  let topic_strlen := service_strlen + strlen cfg.BM_SERVICE_REQ_STR
  if env.bm_malloc_topic_str then
    let topic_str := memcpy service service_strlen ++
      memcpy cfg.BM_SERVICE_REQ_STR (strlen cfg.BM_SERVICE_REQ_STR)
    if sub then
      if env.bm_sub_wl then
        (true, [Event.sub_wl topic_str topic_strlen
          BmCallback.service_request_received_cb true])
      else
        (false, [Event.sub_wl topic_str topic_strlen
          BmCallback.service_request_received_cb false])
    else
      if env.bm_unsub_wl then
        (true, [Event.unsub_wl topic_str topic_strlen
          BmCallback.service_request_received_cb true])
      else
        (false, [Event.unsub_wl topic_str topic_strlen
          BmCallback.service_request_received_cb false])
  else (false, [])

/-- The `_service_list_remove_service` scan: `rval` and the list afterwards. -/
def _service_list_remove_service (service : Option (List Nat)) (service_strlen : Nat)
    (list : List BmServiceListElem) : Bool × List BmServiceListElem :=
  match service with
  | none => (false, list)
  | some s =>
    match list with
    | [] => (false, [])
    | current :: next =>
      if strncmp current.service s service_strlen = 0 then (true, next)
      else
        let r := _service_list_remove_service (some s) service_strlen next
        (r.1, current :: r.2)

/-! ## The public operations -/

/-- The `bm_service_register` operation. -/
def bm_service_register (cfg : BmServiceConfig) (env : Env) (ctx : BmServiceContext)
    (service_strlen : Nat) (service : Option (List Nat)) (service_handler : Nat) :
    Outcome :=
  match service with
  | none => { rval := false, ctx := ctx, trace := [] }
  | some s =>
    if service_handler = 0 then { rval := false, ctx := ctx, trace := [] }
    else if env.bm_semaphore_take then
      match _service_create_list_elem env service_strlen s service_handler with
      | none =>
        { rval := false, ctx := { ctx with lock_taken := false },
          trace := [Event.sem_take true, Event.sem_give] }
      | some list_elem =>
        let list := _service_list_add_service ctx.service_list (some list_elem)
        let r := _service_sub_unsub_to_req_topic cfg env service_strlen s true
        { rval := r.1, ctx := { service_list := list, lock_taken := false },
          trace := [Event.sem_take true] ++ r.2 ++ [Event.sem_give] }
    else { rval := false, ctx := ctx, trace := [Event.sem_take false] }

/-- The `bm_service_unregister` operation. -/
def bm_service_unregister (cfg : BmServiceConfig) (env : Env) (ctx : BmServiceContext)
    (service_strlen : Nat) (service : Option (List Nat)) : Outcome :=
  match service with
  | none => { rval := false, ctx := ctx, trace := [] }
  | some s =>
    if env.bm_semaphore_take then
      let r := _service_sub_unsub_to_req_topic cfg env service_strlen s false
      if r.1 then
        let d := _service_list_remove_service (some s) service_strlen ctx.service_list
        { rval := d.1, ctx := { service_list := d.2, lock_taken := false },
          trace := [Event.sem_take true] ++ r.2 ++ [Event.sem_give] }
      else
        { rval := false, ctx := { ctx with lock_taken := false },
          trace := [Event.sem_take true] ++ r.2 ++ [Event.sem_give] }
    else { rval := false, ctx := ctx, trace := [Event.sem_take false] }

/-! ## The dispatch callback -/

/-- What the dispatch callback leaves behind.  `returned` is `false` when the
callback ran `memset` on the NULL result of the unchecked reply-buffer `bm_malloc`
and so never reached `bm_semaphore_give`. -/
structure CbOutcome where
  ctx : BmServiceContext
  trace : List Event
  returned : Bool
deriving DecidableEq, Repr

/-- The handler invocation of the loop body: `current->service_handler` applied to the
entry, the request payload and the reply capacity `reply_len`. -/
def call_record (handlers : Nat → BmServiceHandler)
    (request_header : BmServiceRequestDataHeader) (reply_len : Nat)
    (current : BmServiceListElem) : CallRecord :=
  { handler := current.service_handler,
    service_strlen := current.service_strlen, service := current.service,
    req_data_len := request_header.data_size, req_data := request_header.data,
    buffer_len := reply_len,
    ret := handlers current.service_handler current.service_strlen current.service
      request_header.data_size request_header.data reply_len }

/-- The `bm_pub_wl` call of the loop body: reply topic, the three header fields as
assigned after the handler returned, the `reply_len` payload bytes behind the header
and the published length. -/
def pub_record (cfg : BmServiceConfig) (node_id : Nat)
    (request_header : BmServiceRequestDataHeader) (current : BmServiceListElem)
    (ret : HandlerReturn) : PubRecord :=
  { topic := memcpy current.service current.service_strlen ++
      memcpy cfg.BM_SERVICE_REP_STR (strlen cfg.BM_SERVICE_REP_STR),
    topic_len := current.service_strlen + strlen cfg.BM_SERVICE_REP_STR,
    target_node_id := node_id, id := request_header.id,
    data_size := ret.reply_len,
    data := memcpy ret.reply_data ret.reply_len,
    len := ret.reply_len + cfg.sizeof_BmServiceReplyDataHeader,
    msg_type := 0, version := cfg.BM_COMMON_PUB_SUB_VERSION }

/-- The branch of the loop body taken when `strncmp` reports a match on `current`,
up to its `break`: the events it issues and whether control leaves the loop. -/
def _service_request_received_cb_found (cfg : BmServiceConfig)
    (handlers : Nat → BmServiceHandler) (env : Env) (node_id : Nat) (topic_len : Nat)
    (request_header : BmServiceRequestDataHeader) (data_len : Nat)
    (current : BmServiceListElem) : List Event × Bool :=
  if data_len ≠ cfg.sizeof_BmServiceRequestDataHeader + request_header.data_size then
    ([Event.debug_data_len], true)
  else if to_size_t cfg topic_len ≠
      to_size_t cfg (current.service_strlen + strlen cfg.BM_SERVICE_REQ_STR) then
    ([Event.debug_topic_len], true)
  else
    let reply_len := cfg.MAX_BM_SERVICE_DATA_SIZE - cfg.sizeof_BmServiceReplyDataHeader
    if env.bm_malloc_reply_data then
      let call := call_record handlers request_header reply_len current
      if call.ret.rval then
        if env.bm_malloc_pub_topic then
          ([Event.handler_call call,
            Event.pub_wl (pub_record cfg node_id request_header current call.ret)], true)
        else ([Event.handler_call call], true)
      else ([Event.handler_call call], true)
    else ([Event.memset_null], false)

/-- The `while (current != NULL)` loop of `_service_request_received_cb`, started at
the given list position. -/
def _service_request_received_cb_loop (cfg : BmServiceConfig)
    (handlers : Nat → BmServiceHandler) (env : Env) (node_id : Nat) (topic : List Nat)
    (topic_len : Nat) (request_header : BmServiceRequestDataHeader) (data_len : Nat) :
    List BmServiceListElem → List Event × Bool
  | [] => ([], true)
  | current :: next =>
    if strncmp current.service topic current.service_strlen = 0 then
      _service_request_received_cb_found cfg handlers env node_id topic_len
        request_header data_len current
    else
      _service_request_received_cb_loop cfg handlers env node_id topic topic_len
        request_header data_len next

/-- The `_service_request_received_cb` callback (`type` and `version` are unused). -/
def _service_request_received_cb (cfg : BmServiceConfig)
    (handlers : Nat → BmServiceHandler) (env : Env) (ctx : BmServiceContext)
    (node_id : Nat) (topic : List Nat) (topic_len : Nat)
    (data : BmServiceRequestDataHeader) (data_len : Nat) : CbOutcome :=
  if env.bm_semaphore_take then
    let r := _service_request_received_cb_loop cfg handlers env node_id topic topic_len
      data data_len ctx.service_list
    if r.2 then
      { ctx := { ctx with lock_taken := false },
        trace := [Event.sem_take true] ++ r.1 ++ [Event.sem_give], returned := true }
    else
      { ctx := { ctx with lock_taken := true },
        trace := [Event.sem_take true] ++ r.1, returned := false }
  else { ctx := ctx, trace := [Event.sem_take false], returned := true }

/-! ## Reading a trace -/

/-- Handler invocations recorded in a trace, in order. -/
def handler_calls (tr : List Event) : List CallRecord :=
  tr.filterMap fun ev => match ev with
    | Event.handler_call c => some c
    | _ => none

/-- Calls of `bm_pub_wl` recorded in a trace, in order. -/
def published (tr : List Event) : List PubRecord :=
  tr.filterMap fun ev => match ev with
    | Event.pub_wl p => some p
    | _ => none

/-- Topics and lengths passed to `bm_sub_wl`, in order. -/
def subscribes (tr : List Event) : List (List Nat × Nat) :=
  tr.filterMap fun ev => match ev with
    | Event.sub_wl t n _ _ => some (t, n)
    | _ => none

/-- Topics and lengths passed to `bm_unsub_wl`, in order. -/
def unsubscribes (tr : List Event) : List (List Nat × Nat) :=
  tr.filterMap fun ev => match ev with
    | Event.unsub_wl t n _ _ => some (t, n)
    | _ => none

/-- Outcomes of the `bm_semaphore_take` calls recorded in a trace, in order. -/
def lock_takes (tr : List Event) : List Bool :=
  tr.filterMap fun ev => match ev with
    | Event.sem_take ok => some ok
    | _ => none

/-- Number of `bm_semaphore_give` calls recorded in a trace. -/
def lock_gives (tr : List Event) : Nat :=
  tr.count Event.sem_give

/-- Callbacks passed to `bm_sub_wl` and `bm_unsub_wl`, in order. -/
def transport_callbacks (tr : List Event) : List BmCallback :=
  tr.filterMap fun ev => match ev with
    | Event.sub_wl _ _ cb _ => some cb
    | Event.unsub_wl _ _ cb _ => some cb
    | _ => none

/-- The first entry accepted by the comparison of the dispatch loop,
`strncmp(current->service, topic, current->service_strlen) == 0`. -/
def first_strncmp_match (topic : List Nat) (list : List BmServiceListElem) :
    Option BmServiceListElem :=
  list.find? fun e => decide (strncmp e.service topic e.service_strlen = 0)

/-- The list with the first entry accepted by the comparison of the removal loop,
`strncmp(current->service, service, service_strlen) == 0`, deleted. -/
def erase_first_match (service : List Nat) (service_strlen : Nat)
    (list : List BmServiceListElem) : List BmServiceListElem :=
  list.eraseP fun e => decide (strncmp e.service service service_strlen = 0)

/-- Modelled from the spec: the transport's subscription table, which is not part of
the sources at hand.  A topic is currently subscribed when the latest accepted
`bm_sub_wl` or `bm_unsub_wl` on it is a `bm_sub_wl`. -/
def currently_subscribed (topic : List Nat × Nat) (tr : List Event) : Bool :=
  tr.foldl (fun b ev => match ev with
    | Event.sub_wl t n _ true => if (t, n) = topic then true else b
    | Event.unsub_wl t n _ true => if (t, n) = topic then false else b
    | _ => b) false

/-- The request topic of a name: its `service_strlen` bytes followed by the request
suffix, with the length `_service_sub_unsub_to_req_topic` reports. -/
def request_topic (cfg : BmServiceConfig) (service : List Nat) (service_strlen : Nat) :
    List Nat × Nat :=
  (memcpy service service_strlen ++
    memcpy cfg.BM_SERVICE_REQ_STR (strlen cfg.BM_SERVICE_REQ_STR),
   service_strlen + strlen cfg.BM_SERVICE_REQ_STR)

/-- A name has an entry in the registry when some element stores its bytes and
length. -/
def registered (service : List Nat) (service_strlen : Nat)
    (list : List BmServiceListElem) : Bool :=
  list.any fun e => decide (e.service_strlen = service_strlen ∧
    memcpy e.service e.service_strlen = memcpy service service_strlen)

/-- Selection as the specification words it: the first entry whose stored name bytes,
over its stored length, equal the leading bytes of the topic. -/
def first_bytes_match (topic : List Nat) (list : List BmServiceListElem) :
    Option BmServiceListElem :=
  list.find? fun e => decide (memcpy e.service e.service_strlen =
    memcpy topic e.service_strlen)

/-! ## Sample data -/

/-- A configuration with suffixes `/req` and `/rep`, a 256 byte service message, an
8 byte request header, a 16 byte reply header and a 32 bit `size_t`. -/
def cfg0 : BmServiceConfig :=
  { BM_SERVICE_REQ_STR := [47, 114, 101, 113],
    BM_SERVICE_REP_STR := [47, 114, 101, 112],
    MAX_BM_SERVICE_DATA_SIZE := 256,
    sizeof_BmServiceRequestDataHeader := 8,
    sizeof_BmServiceReplyDataHeader := 16,
    BM_COMMON_PUB_SUB_VERSION := 2,
    SIZE_MAX := 4294967295 }

/-- Every external call succeeds. -/
def envOk : Env :=
  { bm_semaphore_take := true, bm_malloc_list_elem := true, bm_malloc_topic_str := true,
    bm_sub_wl := true, bm_unsub_wl := true, bm_malloc_reply_data := true,
    bm_malloc_pub_topic := true }

/-- The empty registry with a free lock. -/
def ctx0 : BmServiceContext := { service_list := [], lock_taken := false }

/-- A handler that copies the request payload into the reply and succeeds. -/
def echoHandler : BmServiceHandler :=
  fun _ _ req_data_len req_data _ =>
    { rval := true, reply_len := req_data_len, reply_data := memcpy req_data req_data_len }

/-- A handler that writes one byte and reports failure. -/
def failHandler : BmServiceHandler :=
  fun _ _ _ _ _ => { rval := false, reply_len := 1, reply_data := [255] }

/-- Handler table: address 2 fails, every other address echoes. -/
def handlers0 : Nat → BmServiceHandler :=
  fun a => if a = 2 then failHandler else echoHandler

/-- The bytes of `led`. -/
def led : List Nat := [108, 101, 100]

/-- The bytes of `ledger`. -/
def ledger : List Nat := [108, 101, 100, 103, 101, 114]

/-- The bytes of `fan`. -/
def fan : List Nat := [102, 97, 110]

/-- The registry holding only `led`, handled at address 1. -/
def ctxLed : BmServiceContext :=
  { service_list := [{ service := led, service_strlen := 3, service_handler := 1 }],
    lock_taken := false }

/-- The registry holding only `led`, handled at address 2 (the failing handler). -/
def ctxLedFail : BmServiceContext :=
  { service_list := [{ service := led, service_strlen := 3, service_handler := 2 }],
    lock_taken := false }

/-- Every external call succeeds except the `bm_malloc` of the reply topic. -/
def envNoPubTopic : Env := { envOk with bm_malloc_pub_topic := false }

/-- Every external call succeeds except `bm_sub_wl`. -/
def envSubFail : Env := { envOk with bm_sub_wl := false }

/-- The three bytes `x`, NUL, `y`. -/
def nameXY : List Nat := [120, 0, 121]

/-- The three bytes `x`, NUL, `z`. -/
def nameXZ : List Nat := [120, 0, 122]

/-- The registry holding only `ledger`, handled at address 1. -/
def ctxLedger : BmServiceContext :=
  { service_list := [{ service := ledger, service_strlen := 6, service_handler := 1 }],
    lock_taken := false }

/-- The registry holding only the name `x`, NUL, `y`, handled at address 1. -/
def ctxXY : BmServiceContext :=
  { service_list := [{ service := nameXY, service_strlen := 3, service_handler := 1 }],
    lock_taken := false }

/-- A handler that reports one byte more than the capacity it was given. -/
def overHandler : BmServiceHandler :=
  fun _ _ _ _ buffer_len =>
    { rval := true, reply_len := buffer_len + 1, reply_data := [] }

/-- Handler table: address 4 overruns the capacity, every other address echoes. -/
def handlersOver : Nat → BmServiceHandler :=
  fun a => if a = 4 then overHandler else echoHandler

/-- The registry holding only `led`, handled at address 4. -/
def ctxLedOver : BmServiceContext :=
  { service_list := [{ service := led, service_strlen := 3, service_handler := 4 }],
    lock_taken := false }

/-- The registry holding `led` (handler 1) followed by `ledger` (handler 3). -/
def ctxLedThenLedger : BmServiceContext :=
  { service_list := [{ service := led, service_strlen := 3, service_handler := 1 },
      { service := ledger, service_strlen := 6, service_handler := 3 }],
    lock_taken := false }

/-- No external call succeeds; in particular `bm_semaphore_take` times out. -/
def envTimeout : Env :=
  { bm_semaphore_take := false, bm_malloc_list_elem := false,
    bm_malloc_topic_str := false, bm_sub_wl := false, bm_unsub_wl := false,
    bm_malloc_reply_data := false, bm_malloc_pub_topic := false }

/-- The four bytes `x`, NUL, `z`, `/`. -/
def nameXZSlash : List Nat := [120, 0, 122, 47]

/-- The registry holding `x`,NUL,`y` (3 bytes, handler 1) followed by `x`,NUL,`z`,`/`
(4 bytes, handler 3). -/
def ctxXYThenXZSlash : BmServiceContext :=
  { service_list := [{ service := nameXY, service_strlen := 3, service_handler := 1 },
      { service := nameXZSlash, service_strlen := 4, service_handler := 3 }],
    lock_taken := false }

/-- The registry holding the empty string registered with length `SIZE_MAX - 3`. -/
def ctxWrap : BmServiceContext :=
  { service_list := [{ service := [], service_strlen := 4294967292,
                       service_handler := 1 }],
    lock_taken := false }

/-- Every external call succeeds except the `bm_malloc` of the reply buffer. -/
def envNoReplyBuf : Env := { envOk with bm_malloc_reply_data := false }

/-- A well-formed request: id 7, one payload byte. -/
def req7 : BmServiceRequestDataHeader := { id := 7, data_size := 1, data := [1] }

/-! ## Lemmas on the C string primitives -/

theorem strncmp_succ_eq_zero (s t : List Nat) (n : Nat) :
    strncmp s t (n + 1) = 0 ↔
      deref s = deref t ∧ (deref s = 0 ∨ strncmp s.tail t.tail n = 0) := by
  rw [strncmp]
  by_cases h : deref s = deref t
  · by_cases h0 : deref s = 0
    · have h0t : deref t = 0 := by rw [← h]; exact h0
      simp [h0, h0t]
    · have h0t : ¬ deref t = 0 := by rw [← h]; exact h0
      simp [h, h0t]
  · have hz : (deref s : Int) - (deref t : Int) ≠ 0 := by
      intro hc
      apply h
      have : (deref s : Int) = (deref t : Int) := by linarith
      exact_mod_cast this
    simp [h, hz]

theorem strncmp_self (s : List Nat) (n : Nat) : strncmp s s n = 0 := by
  induction n generalizing s with
  | zero => simp [strncmp]
  | succ n ih =>
    rw [strncmp_succ_eq_zero]
    exact ⟨rfl, Or.inr (ih _)⟩

theorem strncmp_eq_zero_of_memcpy_eq (n : Nat) (s t : List Nat)
    (h : memcpy s n = memcpy t n) : strncmp s t n = 0 := by
  induction n generalizing s t with
  | zero => simp [strncmp]
  | succ n ih =>
    simp only [memcpy, List.cons.injEq] at h
    rw [strncmp_succ_eq_zero]
    exact ⟨h.1, Or.inr (ih _ _ h.2)⟩

theorem memcpy_eq_of_strncmp_eq_zero (n : Nat) (s t : List Nat)
    (hnul : 0 ∉ memcpy s n) (h : strncmp s t n = 0) : memcpy s n = memcpy t n := by
  induction n generalizing s t with
  | zero => simp [memcpy]
  | succ n ih =>
    simp only [memcpy, List.mem_cons, not_or] at hnul
    rw [strncmp_succ_eq_zero] at h
    obtain ⟨hh, ht⟩ := h
    have ht2 : strncmp s.tail t.tail n = 0 := by
      rcases ht with h0 | ht
      · exact absurd h0.symm hnul.1
      · exact ht
    simp only [memcpy, List.cons.injEq]
    exact ⟨hh, ih _ _ hnul.2 ht2⟩

theorem memcpy_length (s : List Nat) (n : Nat) : (memcpy s n).length = n := by
  induction n generalizing s with
  | zero => simp [memcpy]
  | succ n ih => simp [memcpy, ih]

theorem memcpy_append_left (n : Nat) (s rest : List Nat) :
    memcpy (memcpy s n ++ rest) n = memcpy s n := by
  induction n generalizing s with
  | zero => simp [memcpy]
  | succ n ih => simp [memcpy, deref, ih]

/-! ## Lemmas on the list helpers and the dispatch loop -/

theorem add_service_eq_append (l : List BmServiceListElem) (e : BmServiceListElem) :
    _service_list_add_service l (some e) = l ++ [e] := by
  induction l with
  | nil => simp [_service_list_add_service]
  | cons x xs ih => simp [_service_list_add_service, ih]

theorem loop_eq_find (cfg : BmServiceConfig) (handlers : Nat → BmServiceHandler)
    (env : Env) (node_id : Nat) (topic : List Nat) (topic_len : Nat)
    (data : BmServiceRequestDataHeader) (data_len : Nat) (l : List BmServiceListElem) :
    _service_request_received_cb_loop cfg handlers env node_id topic topic_len data
        data_len l =
      match l.find? (fun e => decide (strncmp e.service topic e.service_strlen = 0)) with
      | none => ([], true)
      | some e =>
        _service_request_received_cb_found cfg handlers env node_id topic_len data
          data_len e := by
  induction l with
  | nil => simp [_service_request_received_cb_loop]
  | cons x xs ih =>
    by_cases h : strncmp x.service topic x.service_strlen = 0
    · simp [_service_request_received_cb_loop, h]
    · simp [_service_request_received_cb_loop, h, ih]

theorem cb_trace_calls (cfg : BmServiceConfig) (handlers : Nat → BmServiceHandler)
    (env : Env) (ctx : BmServiceContext) (node_id : Nat) (topic : List Nat)
    (topic_len : Nat) (data : BmServiceRequestDataHeader) (data_len : Nat) :
    handler_calls (_service_request_received_cb cfg handlers env ctx node_id topic
        topic_len data data_len).trace =
      if env.bm_semaphore_take then
        handler_calls (_service_request_received_cb_loop cfg handlers env node_id topic
          topic_len data data_len ctx.service_list).1
      else [] := by
  unfold _service_request_received_cb
  by_cases ht : env.bm_semaphore_take = true
  · simp only [ht, if_true]
    split <;> simp [handler_calls, List.filterMap_append]
  · simp [ht, handler_calls]

theorem cb_trace_published (cfg : BmServiceConfig) (handlers : Nat → BmServiceHandler)
    (env : Env) (ctx : BmServiceContext) (node_id : Nat) (topic : List Nat)
    (topic_len : Nat) (data : BmServiceRequestDataHeader) (data_len : Nat) :
    published (_service_request_received_cb cfg handlers env ctx node_id topic
        topic_len data data_len).trace =
      if env.bm_semaphore_take then
        published (_service_request_received_cb_loop cfg handlers env node_id topic
          topic_len data data_len ctx.service_list).1
      else [] := by
  unfold _service_request_received_cb
  by_cases ht : env.bm_semaphore_take = true
  · simp only [ht, if_true]
    split <;> simp [published, List.filterMap_append]
  · simp [ht, published]

/-! ## Registration with a null argument -/

/-- Claim C1: `bm_service_register` called with a null service name or a null handler
returns false, leaves the context (hence the registry list) unchanged and issues no
event at all: no subscribe, no `bm_semaphore_take`. -/
theorem register_null_argument (cfg : BmServiceConfig) (env : Env)
    (ctx : BmServiceContext) (service_strlen : Nat) (service : Option (List Nat))
    (service_handler : Nat) (hnull : service = none ∨ service_handler = 0) :
    (bm_service_register cfg env ctx service_strlen service service_handler).rval = false ∧
    (bm_service_register cfg env ctx service_strlen service service_handler).ctx = ctx ∧
    (bm_service_register cfg env ctx service_strlen service service_handler).trace = [] ∧
    subscribes
      (bm_service_register cfg env ctx service_strlen service service_handler).trace = [] ∧
    lock_takes
      (bm_service_register cfg env ctx service_strlen service service_handler).trace = [] := by
  rcases hnull with h | h
  · subst h
    simp [bm_service_register, subscribes, lock_takes]
  · subst h
    cases service <;> simp [bm_service_register, subscribes, lock_takes]

/-- Witness of `register_null_argument`: a null handler on the registry holding
`led`, and separately checked there, the registry still holds exactly `led`. -/
theorem register_null_argument_witness :
    (bm_service_register cfg0 envOk ctxLed 3 (some fan) 0).rval = false ∧
    (bm_service_register cfg0 envOk ctxLed 3 (some fan) 0).ctx = ctxLed ∧
    (bm_service_register cfg0 envOk ctxLed 3 (some fan) 0).trace = [] ∧
    subscribes (bm_service_register cfg0 envOk ctxLed 3 (some fan) 0).trace = [] ∧
    lock_takes (bm_service_register cfg0 envOk ctxLed 3 (some fan) 0).trace = [] :=
  register_null_argument cfg0 envOk ctxLed 3 (some fan) 0 (Or.inr rfl)

/-! ## Register followed by unregister -/

/-- Claim C2: on an empty registry, when the lock is acquired, the allocations succeed
and the transport accepts subscribe and unsubscribe, registering a non-null name of any
length with a non-null handler and then unregistering the same name and length both
return true, leave the registry empty, and issue exactly one unsubscribe, on the very
topic (name bytes followed by the request suffix) that was subscribed. -/
theorem register_then_unregister (cfg : BmServiceConfig) (env1 env2 : Env)
    (lock0 : Bool) (service_strlen : Nat) (service : List Nat) (service_handler : Nat)
    (hh : service_handler ≠ 0)
    (h1 : env1.bm_semaphore_take = true) (h2 : env1.bm_malloc_list_elem = true)
    (h3 : env1.bm_malloc_topic_str = true) (h4 : env1.bm_sub_wl = true)
    (h5 : env2.bm_semaphore_take = true) (h6 : env2.bm_malloc_topic_str = true)
    (h7 : env2.bm_unsub_wl = true) :
    (bm_service_register cfg env1 { service_list := [], lock_taken := lock0 }
      service_strlen (some service) service_handler).rval = true ∧
    (bm_service_unregister cfg env2
      (bm_service_register cfg env1 { service_list := [], lock_taken := lock0 }
        service_strlen (some service) service_handler).ctx
      service_strlen (some service)).rval = true ∧
    (bm_service_unregister cfg env2
      (bm_service_register cfg env1 { service_list := [], lock_taken := lock0 }
        service_strlen (some service) service_handler).ctx
      service_strlen (some service)).ctx.service_list = [] ∧
    unsubscribes
      ((bm_service_register cfg env1 { service_list := [], lock_taken := lock0 }
          service_strlen (some service) service_handler).trace ++
        (bm_service_unregister cfg env2
          (bm_service_register cfg env1 { service_list := [], lock_taken := lock0 }
            service_strlen (some service) service_handler).ctx
          service_strlen (some service)).trace) =
      [request_topic cfg service service_strlen] ∧
    subscribes
      ((bm_service_register cfg env1 { service_list := [], lock_taken := lock0 }
          service_strlen (some service) service_handler).trace ++
        (bm_service_unregister cfg env2
          (bm_service_register cfg env1 { service_list := [], lock_taken := lock0 }
            service_strlen (some service) service_handler).ctx
          service_strlen (some service)).trace) =
      [request_topic cfg service service_strlen] := by
  simp [bm_service_register, bm_service_unregister, _service_create_list_elem,
    _service_sub_unsub_to_req_topic, _service_list_add_service,
    _service_list_remove_service, strncmp_self, unsubscribes, subscribes,
    request_topic, hh, h1, h2, h3, h4, h5, h6, h7]

/-- Witness of `register_then_unregister`: `led` with the handler at address 1. -/
theorem register_then_unregister_witness :
    (bm_service_register cfg0 envOk ctx0 3 (some led) 1).rval = true ∧
    (bm_service_unregister cfg0 envOk
      (bm_service_register cfg0 envOk ctx0 3 (some led) 1).ctx 3 (some led)).rval = true ∧
    (bm_service_unregister cfg0 envOk
      (bm_service_register cfg0 envOk ctx0 3 (some led) 1).ctx 3
        (some led)).ctx.service_list = [] ∧
    unsubscribes
      ((bm_service_register cfg0 envOk ctx0 3 (some led) 1).trace ++
        (bm_service_unregister cfg0 envOk
          (bm_service_register cfg0 envOk ctx0 3 (some led) 1).ctx 3 (some led)).trace) =
      [request_topic cfg0 led 3] ∧
    subscribes
      ((bm_service_register cfg0 envOk ctx0 3 (some led) 1).trace ++
        (bm_service_unregister cfg0 envOk
          (bm_service_register cfg0 envOk ctx0 3 (some led) 1).ctx 3 (some led)).trace) =
      [request_topic cfg0 led 3] :=
  register_then_unregister cfg0 envOk envOk false 3 led 1 (by decide) rfl rfl rfl rfl
    rfl rfl rfl

/-! ## Request length validation -/

theorem found_data_len_mismatch (cfg : BmServiceConfig)
    (handlers : Nat → BmServiceHandler) (env : Env) (node_id topic_len : Nat)
    (data : BmServiceRequestDataHeader) (data_len : Nat) (e : BmServiceListElem)
    (hlen : data_len ≠ cfg.sizeof_BmServiceRequestDataHeader + data.data_size) :
    _service_request_received_cb_found cfg handlers env node_id topic_len data data_len e =
      ([Event.debug_data_len], true) := by
  simp [_service_request_received_cb_found, hlen]

/-- Claim C3: when the transport-reported data length differs from the size of the
request header plus the `data_size` declared in the header, the dispatch callback invokes
no handler and publishes no reply, for every registry, topic and environment. -/
theorem cb_data_len_mismatch (cfg : BmServiceConfig) (handlers : Nat → BmServiceHandler)
    (env : Env) (ctx : BmServiceContext) (node_id : Nat) (topic : List Nat)
    (topic_len : Nat) (data : BmServiceRequestDataHeader) (data_len : Nat)
    (hlen : data_len ≠ cfg.sizeof_BmServiceRequestDataHeader + data.data_size) :
    handler_calls (_service_request_received_cb cfg handlers env ctx node_id topic
      topic_len data data_len).trace = [] ∧
    published (_service_request_received_cb cfg handlers env ctx node_id topic
      topic_len data data_len).trace = [] := by
  rw [cb_trace_calls, cb_trace_published, loop_eq_find]
  cases hf : ctx.service_list.find?
      (fun e => decide (strncmp e.service topic e.service_strlen = 0)) with
  | none => simp [handler_calls, published]
  | some e =>
    simp [found_data_len_mismatch cfg handlers env node_id topic_len data data_len e hlen,
      handler_calls, published]

/-- Witness of `cb_data_len_mismatch`: `led` is registered and the request on its
topic declares one payload byte but arrives with ten bytes instead of nine. -/
theorem cb_data_len_mismatch_witness :
    handler_calls (_service_request_received_cb cfg0 handlers0 envOk ctxLed 42
      (led ++ cfg0.BM_SERVICE_REQ_STR) 7 req7 10).trace = [] ∧
    published (_service_request_received_cb cfg0 handlers0 envOk ctxLed 42
      (led ++ cfg0.BM_SERVICE_REQ_STR) 7 req7 10).trace = [] :=
  cb_data_len_mismatch cfg0 handlers0 envOk ctxLed 42 (led ++ cfg0.BM_SERVICE_REQ_STR) 7
    req7 10 (by decide)

/-! ## Handler invocation and reply -/

theorem found_cases (cfg : BmServiceConfig) (handlers : Nat → BmServiceHandler)
    (env : Env) (node_id topic_len : Nat) (data : BmServiceRequestDataHeader)
    (data_len : Nat) (e : BmServiceListElem) :
    (handler_calls (_service_request_received_cb_found cfg handlers env node_id
        topic_len data data_len e).1 = [] ∧
      published (_service_request_received_cb_found cfg handlers env node_id
        topic_len data data_len e).1 = []) ∨
    (data_len = cfg.sizeof_BmServiceRequestDataHeader + data.data_size ∧
      to_size_t cfg topic_len =
        to_size_t cfg (e.service_strlen + strlen cfg.BM_SERVICE_REQ_STR) ∧
      env.bm_malloc_reply_data = true ∧
      handler_calls (_service_request_received_cb_found cfg handlers env node_id
        topic_len data data_len e).1 =
        [call_record handlers data
          (cfg.MAX_BM_SERVICE_DATA_SIZE - cfg.sizeof_BmServiceReplyDataHeader) e] ∧
      published (_service_request_received_cb_found cfg handlers env node_id
        topic_len data data_len e).1 =
        if (call_record handlers data
            (cfg.MAX_BM_SERVICE_DATA_SIZE - cfg.sizeof_BmServiceReplyDataHeader)
            e).ret.rval = true ∧ env.bm_malloc_pub_topic = true then
          [pub_record cfg node_id data e
            (call_record handlers data
              (cfg.MAX_BM_SERVICE_DATA_SIZE - cfg.sizeof_BmServiceReplyDataHeader)
              e).ret]
        else []) := by
  unfold _service_request_received_cb_found
  by_cases h1 : data_len = cfg.sizeof_BmServiceRequestDataHeader + data.data_size
  · by_cases h2 : to_size_t cfg topic_len =
        to_size_t cfg (e.service_strlen + strlen cfg.BM_SERVICE_REQ_STR)
    · by_cases h3 : env.bm_malloc_reply_data = true
      · right
        refine ⟨h1, h2, h3, ?_, ?_⟩
        · simp only [h1, h2, h3, ne_eq, not_true_eq_false, if_false, if_true]
          split
          · split <;> simp [handler_calls]
          · simp [handler_calls]
        · simp only [h1, h2, h3, ne_eq, not_true_eq_false, if_false, if_true]
          by_cases h4 : (call_record handlers data
              (cfg.MAX_BM_SERVICE_DATA_SIZE - cfg.sizeof_BmServiceReplyDataHeader)
              e).ret.rval = true
          · by_cases h5 : env.bm_malloc_pub_topic = true
            · simp [h4, h5, published]
            · simp [h4, h5, published]
          · simp [h4, published]
      · left
        simp [h1, h2, h3, handler_calls, published]
    · left
      simp [h1, h2, handler_calls, published]
  · left
    simp [h1, handler_calls, published]

/-- Shape of every dispatch: either nothing is invoked and nothing is published, or the
lock was taken, the first entry accepted by `strncmp` passed both validations, its
handler is the only one invoked, and the reply is published exactly when the handler
returned true and the reply topic could be allocated. -/
theorem cb_cases (cfg : BmServiceConfig) (handlers : Nat → BmServiceHandler)
    (env : Env) (ctx : BmServiceContext) (node_id : Nat) (topic : List Nat)
    (topic_len : Nat) (data : BmServiceRequestDataHeader) (data_len : Nat) :
    (handler_calls (_service_request_received_cb cfg handlers env ctx node_id topic
        topic_len data data_len).trace = [] ∧
      published (_service_request_received_cb cfg handlers env ctx node_id topic
        topic_len data data_len).trace = []) ∨
    (∃ e, ctx.service_list.find?
        (fun e => decide (strncmp e.service topic e.service_strlen = 0)) = some e ∧
      env.bm_semaphore_take = true ∧
      data_len = cfg.sizeof_BmServiceRequestDataHeader + data.data_size ∧
      to_size_t cfg topic_len =
        to_size_t cfg (e.service_strlen + strlen cfg.BM_SERVICE_REQ_STR) ∧
      env.bm_malloc_reply_data = true ∧
      handler_calls (_service_request_received_cb cfg handlers env ctx node_id topic
        topic_len data data_len).trace =
        [call_record handlers data
          (cfg.MAX_BM_SERVICE_DATA_SIZE - cfg.sizeof_BmServiceReplyDataHeader) e] ∧
      published (_service_request_received_cb cfg handlers env ctx node_id topic
        topic_len data data_len).trace =
        if (call_record handlers data
            (cfg.MAX_BM_SERVICE_DATA_SIZE - cfg.sizeof_BmServiceReplyDataHeader)
            e).ret.rval = true ∧ env.bm_malloc_pub_topic = true then
          [pub_record cfg node_id data e
            (call_record handlers data
              (cfg.MAX_BM_SERVICE_DATA_SIZE - cfg.sizeof_BmServiceReplyDataHeader)
              e).ret]
        else []) := by
  rw [cb_trace_calls, cb_trace_published, loop_eq_find]
  by_cases ht : env.bm_semaphore_take = true
  · simp only [ht, if_true]
    cases hf : ctx.service_list.find?
        (fun e => decide (strncmp e.service topic e.service_strlen = 0)) with
    | none => left; simp [handler_calls, published]
    | some e =>
      rcases found_cases cfg handlers env node_id topic_len data data_len e with h | h
      · left; exact h
      · right
        exact ⟨e, rfl, trivial, h⟩
  · left
    simp [ht]

/-- Claim C4, as amended: when a request is dispatched to a handler which sets the reply
length to `N` and returns true, and the buffer for the reply topic is allocated, the
callback publishes exactly one reply; its length is `N` plus the size of the reply
header and its request id is the id of the request header.  This holds for every `N`,
in particular for `N` within the reply capacity. -/
theorem cb_reply_len_and_id (cfg : BmServiceConfig) (handlers : Nat → BmServiceHandler)
    (env : Env) (ctx : BmServiceContext) (node_id : Nat) (topic : List Nat)
    (topic_len : Nat) (data : BmServiceRequestDataHeader) (data_len : Nat)
    (c : CallRecord) (N : Nat)
    (hc : c ∈ handler_calls (_service_request_received_cb cfg handlers env ctx node_id
      topic topic_len data data_len).trace)
    (hN : c.ret.reply_len = N) (hok : c.ret.rval = true)
    (hpub : env.bm_malloc_pub_topic = true) :
    ∃ p, published (_service_request_received_cb cfg handlers env ctx node_id topic
        topic_len data data_len).trace = [p] ∧
      p.len = N + cfg.sizeof_BmServiceReplyDataHeader ∧ p.id = data.id := by
  rcases cb_cases cfg handlers env ctx node_id topic topic_len data data_len with h | h
  · rw [h.1] at hc
    simp at hc
  · obtain ⟨e, _, _, _, _, _, hcalls, hpubs⟩ := h
    rw [hcalls, List.mem_singleton] at hc
    subst hc
    rw [hpubs]
    simp only [hok, hpub, and_self, if_true]
    exact ⟨_, rfl, by simp [pub_record, hN], by simp [pub_record]⟩

/-- Witness of `cb_reply_len_and_id`: the echo handler of `led` answers a one byte
request with a one byte reply. -/
theorem cb_reply_len_and_id_witness :
    ∃ p, published (_service_request_received_cb cfg0 handlers0 envOk ctxLed 42
        (led ++ cfg0.BM_SERVICE_REQ_STR) 7 req7 9).trace = [p] ∧
      p.len = 1 + cfg0.sizeof_BmServiceReplyDataHeader ∧ p.id = req7.id :=
  cb_reply_len_and_id cfg0 handlers0 envOk ctxLed 42 (led ++ cfg0.BM_SERVICE_REQ_STR) 7
    req7 9
    (call_record handlers0 req7 240
      { service := led, service_strlen := 3, service_handler := 1 })
    1 (by decide) (by decide) (by decide) (by decide)

/-- Claim C4 as stated fails when `bm_malloc` returns NULL for the reply topic: the
request is dispatched, the handler sets the reply length to 1 (within the capacity
240) and returns true, yet nothing is published. -/
theorem cb_reply_dropped_without_pub_topic :
    ¬ (∀ c ∈ handler_calls (_service_request_received_cb cfg0 handlers0 envNoPubTopic
          ctxLed 42 (led ++ cfg0.BM_SERVICE_REQ_STR) 7 req7 9).trace,
        c.ret.rval = true →
        c.ret.reply_len ≤
          cfg0.MAX_BM_SERVICE_DATA_SIZE - cfg0.sizeof_BmServiceReplyDataHeader →
        ∃ p, published (_service_request_received_cb cfg0 handlers0 envNoPubTopic
            ctxLed 42 (led ++ cfg0.BM_SERVICE_REQ_STR) 7 req7 9).trace = [p] ∧
          p.len = c.ret.reply_len + cfg0.sizeof_BmServiceReplyDataHeader ∧
          p.id = req7.id) := by
  intro h
  obtain ⟨p, hp, _⟩ := h
    (call_record handlers0 req7 240
      { service := led, service_strlen := 3, service_handler := 1 })
    (by decide) (by decide) (by decide)
  have hnone : published (_service_request_received_cb cfg0 handlers0 envNoPubTopic
      ctxLed 42 (led ++ cfg0.BM_SERVICE_REQ_STR) 7 req7 9).trace = [] := by decide
  rw [hnone] at hp
  exact List.noConfusion hp

/-- Claim C5: when a request is dispatched to a handler that returns false, the
callback makes no call to `bm_pub_wl`, whatever reply length and reply bytes the handler
left behind. -/
theorem cb_handler_failure_no_publish (cfg : BmServiceConfig)
    (handlers : Nat → BmServiceHandler) (env : Env) (ctx : BmServiceContext)
    (node_id : Nat) (topic : List Nat) (topic_len : Nat)
    (data : BmServiceRequestDataHeader) (data_len : Nat) (c : CallRecord)
    (hc : c ∈ handler_calls (_service_request_received_cb cfg handlers env ctx node_id
      topic topic_len data data_len).trace)
    (hfail : c.ret.rval = false) :
    published (_service_request_received_cb cfg handlers env ctx node_id topic
      topic_len data data_len).trace = [] := by
  rcases cb_cases cfg handlers env ctx node_id topic topic_len data data_len with h | h
  · exact h.2
  · obtain ⟨e, _, _, _, _, _, hcalls, hpubs⟩ := h
    rw [hcalls, List.mem_singleton] at hc
    subst hc
    rw [hpubs]
    simp [hfail]

/-- Witness of `cb_handler_failure_no_publish`: `led` is served by the failing handler,
which reports one reply byte and returns false. -/
theorem cb_handler_failure_no_publish_witness :
    published (_service_request_received_cb cfg0 handlers0 envOk ctxLedFail 42
      (led ++ cfg0.BM_SERVICE_REQ_STR) 7 req7 9).trace = [] :=
  cb_handler_failure_no_publish cfg0 handlers0 envOk ctxLedFail 42
    (led ++ cfg0.BM_SERVICE_REQ_STR) 7 req7 9
    (call_record handlers0 req7 240
      { service := led, service_strlen := 3, service_handler := 2 })
    (by decide) (by decide)

/-! ## Two services with unrelated names -/

theorem strncmp_ne_zero_of_not_prefix (la : Nat) :
    ∀ (a b : List Nat) (lb : Nat) (rest : List Nat),
      ¬ memcpy a la <+: memcpy b lb → ¬ memcpy b lb <+: memcpy a la →
      0 ∉ memcpy a la → strncmp a (memcpy b lb ++ rest) la ≠ 0 := by
  induction la with
  | zero =>
    intro a b lb rest h1
    exact absurd (by simp [memcpy]) h1
  | succ la ih =>
    intro a b lb rest h1 h2 hnul
    cases lb with
    | zero => exact absurd (by simp [memcpy]) h2
    | succ lb =>
      simp only [memcpy, List.cons_prefix_cons, not_and] at h1 h2
      simp only [memcpy, List.mem_cons, not_or] at hnul
      rw [Ne, strncmp_succ_eq_zero]
      rintro ⟨hh, ht⟩
      have hh2 : deref a = deref b := by simpa [memcpy, deref] using hh
      have ht2 : strncmp a.tail (memcpy b.tail lb ++ rest) la = 0 := by
        rcases ht with h0 | ht
        · exact absurd h0.symm hnul.1
        · simpa [memcpy] using ht
      exact ih a.tail b.tail lb rest (h1 hh2) (h2 hh2.symm) hnul.2 ht2

theorem register_true_list (cfg : BmServiceConfig) (env : Env) (ctx : BmServiceContext)
    (service_strlen : Nat) (service : List Nat) (service_handler : Nat)
    (hr : (bm_service_register cfg env ctx service_strlen (some service)
      service_handler).rval = true) :
    (bm_service_register cfg env ctx service_strlen (some service)
      service_handler).ctx.service_list =
      ctx.service_list ++
        [{ service := service, service_strlen := service_strlen,
           service_handler := service_handler }] := by
  unfold bm_service_register at hr ⊢
  by_cases h0 : service_handler = 0
  · simp [h0] at hr
  · by_cases ht : env.bm_semaphore_take = true
    · by_cases hm : env.bm_malloc_list_elem = true
      · simp [h0, ht, hm, _service_create_list_elem, add_service_eq_append]
      · simp [h0, ht, hm, _service_create_list_elem] at hr
    · simp [h0, ht] at hr

/-- Claim C6, as amended: let A and B be names such that neither is a prefix of the
other as byte sequences of their registered lengths, and A holds no NUL byte within its
registered length.  After A and then B have been registered successfully on an empty
registry, a request whose data length matches its header, delivered on the topic B
followed by the request suffix while the lock is acquired and the reply buffer is
allocated, invokes exactly one handler: the one of B, with the name and length of B.
The handler of A, when it is another one, is not invoked. -/
theorem dispatch_second_of_two (cfg : BmServiceConfig)
    (handlers : Nat → BmServiceHandler) (env1 env2 envd : Env) (lock0 : Bool)
    (a b : List Nat) (la lb hA hB : Nat)
    (hab : ¬ memcpy a la <+: memcpy b lb) (hba : ¬ memcpy b lb <+: memcpy a la)
    (hnul : 0 ∉ memcpy a la)
    (hr1 : (bm_service_register cfg env1 { service_list := [], lock_taken := lock0 }
      la (some a) hA).rval = true)
    (hr2 : (bm_service_register cfg env2
      (bm_service_register cfg env1 { service_list := [], lock_taken := lock0 }
        la (some a) hA).ctx lb (some b) hB).rval = true)
    (htake : envd.bm_semaphore_take = true)
    (hmalloc : envd.bm_malloc_reply_data = true)
    (node_id : Nat) (rest : List Nat) (data : BmServiceRequestDataHeader)
    (data_len : Nat)
    (hlen : data_len = cfg.sizeof_BmServiceRequestDataHeader + data.data_size) :
    handler_calls (_service_request_received_cb cfg handlers envd
      (bm_service_register cfg env2
        (bm_service_register cfg env1 { service_list := [], lock_taken := lock0 }
          la (some a) hA).ctx lb (some b) hB).ctx
      node_id
      (memcpy b lb ++ memcpy cfg.BM_SERVICE_REQ_STR (strlen cfg.BM_SERVICE_REQ_STR) ++ rest)
      (lb + strlen cfg.BM_SERVICE_REQ_STR) data data_len).trace =
      [call_record handlers data
        (cfg.MAX_BM_SERVICE_DATA_SIZE - cfg.sizeof_BmServiceReplyDataHeader)
        { service := b, service_strlen := lb, service_handler := hB }] ∧
    (hA ≠ hB →
      ∀ c ∈ handler_calls (_service_request_received_cb cfg handlers envd
        (bm_service_register cfg env2
          (bm_service_register cfg env1 { service_list := [], lock_taken := lock0 }
            la (some a) hA).ctx lb (some b) hB).ctx
        node_id
        (memcpy b lb ++ memcpy cfg.BM_SERVICE_REQ_STR (strlen cfg.BM_SERVICE_REQ_STR) ++
          rest)
        (lb + strlen cfg.BM_SERVICE_REQ_STR) data data_len).trace,
        c.handler ≠ hA) := by
  have hlist := register_true_list cfg env2 _ lb b hB hr2
  rw [register_true_list cfg env1 _ la a hA hr1] at hlist
  have hA0 : strncmp a
      (memcpy b lb ++ memcpy cfg.BM_SERVICE_REQ_STR (strlen cfg.BM_SERVICE_REQ_STR) ++ rest)
      la ≠ 0 := by
    rw [List.append_assoc]
    exact strncmp_ne_zero_of_not_prefix la a b lb _ hab hba hnul
  have hB0 : strncmp b
      (memcpy b lb ++ memcpy cfg.BM_SERVICE_REQ_STR (strlen cfg.BM_SERVICE_REQ_STR) ++ rest)
      lb = 0 := by
    apply strncmp_eq_zero_of_memcpy_eq
    rw [List.append_assoc, memcpy_append_left]
  have hcalls : handler_calls (_service_request_received_cb cfg handlers envd
      (bm_service_register cfg env2
        (bm_service_register cfg env1 { service_list := [], lock_taken := lock0 }
          la (some a) hA).ctx lb (some b) hB).ctx
      node_id
      (memcpy b lb ++ memcpy cfg.BM_SERVICE_REQ_STR (strlen cfg.BM_SERVICE_REQ_STR) ++ rest)
      (lb + strlen cfg.BM_SERVICE_REQ_STR) data data_len).trace =
      [call_record handlers data
        (cfg.MAX_BM_SERVICE_DATA_SIZE - cfg.sizeof_BmServiceReplyDataHeader)
        { service := b, service_strlen := lb, service_handler := hB }] := by
    rw [cb_trace_calls, hlist]
    simp only [htake, if_true, List.nil_append, _service_request_received_cb_loop, hA0,
      hB0, if_false]
    simp only [_service_request_received_cb_found, hlen, hmalloc, ne_eq,
      not_true_eq_false, if_false, if_true]
    split
    · split <;> simp [handler_calls]
    · simp [handler_calls]
  refine ⟨hcalls, ?_⟩
  intro hne c hc
  rw [hcalls, List.mem_singleton] at hc
  subst hc
  simpa [call_record] using fun h => hne h.symm

/-- Witness of `dispatch_second_of_two`: `led` (handler 1) then `fan` (handler 3); a
request on the request topic of `fan` reaches the handler at address 3 only. -/
theorem dispatch_second_of_two_witness :
    handler_calls (_service_request_received_cb cfg0 handlers0 envOk
      (bm_service_register cfg0 envOk
        (bm_service_register cfg0 envOk { service_list := [], lock_taken := false }
          3 (some led) 1).ctx 3 (some fan) 3).ctx
      42
      (memcpy fan 3 ++ memcpy cfg0.BM_SERVICE_REQ_STR (strlen cfg0.BM_SERVICE_REQ_STR) ++ [])
      (3 + strlen cfg0.BM_SERVICE_REQ_STR) req7 9).trace =
      [call_record handlers0 req7
        (cfg0.MAX_BM_SERVICE_DATA_SIZE - cfg0.sizeof_BmServiceReplyDataHeader)
        { service := fan, service_strlen := 3, service_handler := 3 }] ∧
    (1 ≠ 3 →
      ∀ c ∈ handler_calls (_service_request_received_cb cfg0 handlers0 envOk
        (bm_service_register cfg0 envOk
          (bm_service_register cfg0 envOk { service_list := [], lock_taken := false }
            3 (some led) 1).ctx 3 (some fan) 3).ctx
        42
        (memcpy fan 3 ++ memcpy cfg0.BM_SERVICE_REQ_STR (strlen cfg0.BM_SERVICE_REQ_STR) ++
          [])
        (3 + strlen cfg0.BM_SERVICE_REQ_STR) req7 9).trace,
        c.handler ≠ 1) :=
  dispatch_second_of_two cfg0 handlers0 envOk envOk envOk false led fan 3 3 1 3
    (by decide) (by decide) (by decide) (by decide) (by decide) rfl rfl 42 [] req7 9
    (by decide)

/-- Claim C6 as stated fails for names holding a NUL byte: the three byte names
`x`,NUL,`y` (handler 1) and `x`,NUL,`z` (handler 3) are not prefixes of one another and
both register, yet the request on the topic of the second name is answered by the
handler of the first, because `strncmp` stops at the common NUL. -/
theorem dispatch_second_of_two_fails_with_nul :
    ¬ memcpy nameXY 3 <+: memcpy nameXZ 3 ∧ ¬ memcpy nameXZ 3 <+: memcpy nameXY 3 ∧
    (bm_service_register cfg0 envOk ctx0 3 (some nameXY) 1).rval = true ∧
    (bm_service_register cfg0 envOk
      (bm_service_register cfg0 envOk ctx0 3 (some nameXY) 1).ctx
      3 (some nameXZ) 3).rval = true ∧
    (handler_calls (_service_request_received_cb cfg0 handlers0 envOk
      (bm_service_register cfg0 envOk
        (bm_service_register cfg0 envOk ctx0 3 (some nameXY) 1).ctx
        3 (some nameXZ) 3).ctx
      42 (memcpy nameXZ 3 ++ memcpy cfg0.BM_SERVICE_REQ_STR (strlen cfg0.BM_SERVICE_REQ_STR))
      (3 + strlen cfg0.BM_SERVICE_REQ_STR) req7 9).trace).map (fun c => c.handler) =
      [1] := by
  decide

/-! ## Subscription failure and prefix removal -/

/-- Whenever the lock is taken and the node is allocated but the subscription step
fails (rejected by the transport or no topic buffer), `bm_service_register` returns false
and the registry is the previous list followed by the new node. -/
theorem register_sub_failure_appends (cfg : BmServiceConfig) (env : Env)
    (ctx : BmServiceContext) (service_strlen : Nat) (service : List Nat)
    (service_handler : Nat) (hh : service_handler ≠ 0)
    (ht : env.bm_semaphore_take = true) (hm : env.bm_malloc_list_elem = true)
    (hs : env.bm_malloc_topic_str = false ∨ env.bm_sub_wl = false) :
    (bm_service_register cfg env ctx service_strlen (some service)
      service_handler).rval = false ∧
    (bm_service_register cfg env ctx service_strlen (some service)
      service_handler).ctx.service_list =
      ctx.service_list ++
        [{ service := service, service_strlen := service_strlen,
           service_handler := service_handler }] := by
  rcases hs with hs | hs
  · simp [bm_service_register, _service_create_list_elem,
      _service_sub_unsub_to_req_topic, add_service_eq_append, hh, ht, hm, hs]
  · by_cases hq : env.bm_malloc_topic_str = true
    · simp [bm_service_register, _service_create_list_elem,
        _service_sub_unsub_to_req_topic, add_service_eq_append, hh, ht, hm, hs, hq]
    · simp [bm_service_register, _service_create_list_elem,
        _service_sub_unsub_to_req_topic, add_service_eq_append, hh, ht, hm, hq]

/-- Claim C7 fails on the code: on the empty registry, with the lock acquired and the
node allocated, a rejected `bm_sub_wl` makes `bm_service_register` return false while
the node appended before the subscription stays in the list. -/
theorem register_sub_rejected_keeps_node :
    (bm_service_register cfg0 envSubFail ctx0 3 (some led) 1).rval = false ∧
    (bm_service_register cfg0 envSubFail ctx0 3 (some led) 1).ctx.service_list =
      [{ service := led, service_strlen := 3, service_handler := 1 }] ∧
    (bm_service_register cfg0 envSubFail ctx0 3 (some led) 1).ctx.service_list ≠
      ctx0.service_list := by
  decide

/-- Claim C8 fails on the code: with only `ledger` (6 bytes) registered, unregistering
the probe `led` with length 3 returns true and removes the `ledger` entry, whose stored
length differs from the probe length. -/
theorem unregister_removes_longer_name :
    (bm_service_unregister cfg0 envOk ctxLedger 3 (some led)).rval = true ∧
    (bm_service_unregister cfg0 envOk ctxLedger 3 (some led)).ctx.service_list = [] ∧
    ctxLedger.service_list =
      [{ service := ledger, service_strlen := 6, service_handler := 1 }] := by
  decide

/-- Claim C9 fails on the code: after the single call registering `led` on the empty
registry with `bm_sub_wl` rejected, `led` has an entry in the registry while its request
topic is not subscribed. -/
theorem registry_without_subscription :
    registered led 3
      (bm_service_register cfg0 envSubFail ctx0 3 (some led) 1).ctx.service_list = true ∧
    currently_subscribed (request_topic cfg0 led 3)
      (bm_service_register cfg0 envSubFail ctx0 3 (some led) 1).trace = false := by
  decide

/-! ## First match wins -/

theorem find_bytes_eq_find_strncmp (topic : List Nat) (l : List BmServiceListElem)
    (hnul : ∀ e ∈ l, 0 ∉ memcpy e.service e.service_strlen) :
    first_bytes_match topic l =
      l.find? (fun e => decide (strncmp e.service topic e.service_strlen = 0)) := by
  unfold first_bytes_match
  induction l with
  | nil => rfl
  | cons x xs ih =>
    have hx : (memcpy x.service x.service_strlen = memcpy topic x.service_strlen) ↔
        strncmp x.service topic x.service_strlen = 0 :=
      ⟨strncmp_eq_zero_of_memcpy_eq _ _ _,
        memcpy_eq_of_strncmp_eq_zero _ _ _ (hnul x (List.mem_cons_self _ _))⟩
    have ih2 := ih (fun e he => hnul e (List.mem_cons_of_mem _ he))
    by_cases h : strncmp x.service topic x.service_strlen = 0
    · simp [List.find?_cons, h, hx.mpr h]
    · have h2 : ¬ memcpy x.service x.service_strlen = memcpy topic x.service_strlen :=
        fun hc => h (hx.mp hc)
      simp [List.find?_cons, h, h2, ih2]

theorem loop_stops_at_match (cfg : BmServiceConfig) (handlers : Nat → BmServiceHandler)
    (env : Env) (node_id : Nat) (topic : List Nat) (topic_len : Nat)
    (data : BmServiceRequestDataHeader) (data_len : Nat)
    (before : List BmServiceListElem) (e : BmServiceListElem)
    (later later2 : List BmServiceListElem)
    (hm : strncmp e.service topic e.service_strlen = 0) :
    _service_request_received_cb_loop cfg handlers env node_id topic topic_len data
        data_len (before ++ e :: later) =
      _service_request_received_cb_loop cfg handlers env node_id topic topic_len data
        data_len (before ++ e :: later2) := by
  induction before with
  | nil => simp [_service_request_received_cb_loop, hm]
  | cons x xs ih =>
    by_cases h : strncmp x.service topic x.service_strlen = 0
    · simp [_service_request_received_cb_loop, h]
    · simp [_service_request_received_cb_loop, h, ih]

theorem find_bytes_of_find_strncmp (topic : List Nat) (l : List BmServiceListElem)
    (e : BmServiceListElem)
    (hfind : l.find? (fun e => decide (strncmp e.service topic e.service_strlen = 0)) =
      some e)
    (hnul : 0 ∉ memcpy e.service e.service_strlen) :
    first_bytes_match topic l = some e := by
  unfold first_bytes_match
  induction l with
  | nil => simp at hfind
  | cons x xs ih =>
    by_cases h : strncmp x.service topic x.service_strlen = 0
    · simp only [List.find?_cons, h, decide_True] at hfind
      cases hfind
      have hb := memcpy_eq_of_strncmp_eq_zero _ _ _ hnul h
      simp [List.find?_cons, hb]
    · have h2 : ¬ memcpy x.service x.service_strlen = memcpy topic x.service_strlen :=
        fun hc => h (strncmp_eq_zero_of_memcpy_eq _ _ _ hc)
      simp only [List.find?_cons, h, decide_False] at hfind
      simp [List.find?_cons, h2, ih hfind]

theorem find_strncmp_of_first_bytes (topic : List Nat)
    (before : List BmServiceListElem) (e : BmServiceListElem)
    (after : List BmServiceListElem)
    (hbefore : ∀ x ∈ before,
      memcpy x.service x.service_strlen ≠ memcpy topic x.service_strlen)
    (he : memcpy e.service e.service_strlen = memcpy topic e.service_strlen)
    (hnul : ∀ x ∈ before, 0 ∉ memcpy x.service x.service_strlen) :
    (before ++ e :: after).find?
      (fun e => decide (strncmp e.service topic e.service_strlen = 0)) = some e := by
  induction before with
  | nil => simp [List.find?_cons, strncmp_eq_zero_of_memcpy_eq _ _ _ he]
  | cons x xs ih =>
    have hx : ¬ strncmp x.service topic x.service_strlen = 0 := fun hc =>
      hbefore x (List.mem_cons_self _ _)
        (memcpy_eq_of_strncmp_eq_zero _ _ _ (hnul x (List.mem_cons_self _ _)) hc)
    have ih2 := ih (fun y hy => hbefore y (List.mem_cons_of_mem _ hy))
      (fun y hy => hnul y (List.mem_cons_of_mem _ hy))
    simp [List.find?_cons, hx, ih2]

/-- Claim C10, as amended: for every registry and every inbound message, the dispatch
callback invokes at most one handler; if it invokes one, through an entry whose stored
name holds no NUL byte within its stored length, it is the handler of the first entry,
in list order, whose stored name bytes over the stored length equal the leading bytes of
the topic, called with that entry's name and length; and the events issued do not depend
on the entries that follow an entry whose name bytes equal the leading bytes of the
topic. -/
theorem cb_first_match_wins (cfg : BmServiceConfig) (handlers : Nat → BmServiceHandler)
    (env : Env) (ctx : BmServiceContext) (node_id : Nat) (topic : List Nat)
    (topic_len : Nat) (data : BmServiceRequestDataHeader) (data_len : Nat) :
    (handler_calls (_service_request_received_cb cfg handlers env ctx node_id topic
      topic_len data data_len).trace).length ≤ 1 ∧
    (∀ c ∈ handler_calls (_service_request_received_cb cfg handlers env ctx node_id topic
        topic_len data data_len).trace,
      0 ∉ memcpy c.service c.service_strlen →
      ∃ e, first_bytes_match topic ctx.service_list = some e ∧
        c = call_record handlers data
          (cfg.MAX_BM_SERVICE_DATA_SIZE - cfg.sizeof_BmServiceReplyDataHeader) e ∧
        c.handler = e.service_handler) ∧
    (∀ (before : List BmServiceListElem) (e : BmServiceListElem)
        (later later2 : List BmServiceListElem),
      ctx.service_list = before ++ e :: later →
      memcpy e.service e.service_strlen = memcpy topic e.service_strlen →
      (_service_request_received_cb cfg handlers env
        { ctx with service_list := before ++ e :: later2 } node_id topic topic_len data
        data_len).trace =
      (_service_request_received_cb cfg handlers env ctx node_id topic topic_len data
        data_len).trace) := by
  refine ⟨?_, ?_, ?_⟩
  · rcases cb_cases cfg handlers env ctx node_id topic topic_len data data_len with h | h
    · simp [h.1]
    · obtain ⟨e, _, _, _, _, _, hcalls, _⟩ := h
      simp [hcalls]
  · intro c hc hnul
    rcases cb_cases cfg handlers env ctx node_id topic topic_len data data_len with h | h
    · rw [h.1] at hc
      simp at hc
    · obtain ⟨e, hfind, _, _, _, _, hcalls, _⟩ := h
      rw [hcalls, List.mem_singleton] at hc
      subst hc
      exact ⟨e, find_bytes_of_find_strncmp topic ctx.service_list e hfind hnul, rfl, rfl⟩
  · intro before e later later2 hl hm
    have hs := strncmp_eq_zero_of_memcpy_eq _ _ _ hm
    unfold _service_request_received_cb
    simp only [hl]
    rw [loop_stops_at_match cfg handlers env node_id topic topic_len data data_len before
      e later later2 hs]
    by_cases ht : env.bm_semaphore_take = true
    · simp only [ht, if_true]
      split <;> rfl
    · simp [ht]

/-- Witness of `cb_first_match_wins`: the registry holding `led` then `ledger` and a
request on the request topic of `led`; the entry invoked is `led`, which holds no NUL
byte. -/
theorem cb_first_match_wins_witness :
    ∃ e, first_bytes_match (led ++ cfg0.BM_SERVICE_REQ_STR)
        ctxLedThenLedger.service_list = some e ∧
      call_record handlers0 req7 240
          { service := led, service_strlen := 3, service_handler := 1 } =
        call_record handlers0 req7
          (cfg0.MAX_BM_SERVICE_DATA_SIZE - cfg0.sizeof_BmServiceReplyDataHeader) e ∧
      1 = e.service_handler :=
  (cb_first_match_wins cfg0 handlers0 envOk ctxLedThenLedger 42
    (led ++ cfg0.BM_SERVICE_REQ_STR) 7 req7 9).2.1
    (call_record handlers0 req7 240
      { service := led, service_strlen := 3, service_handler := 1 })
    (by decide) (by decide)

/-- Claim C10 as stated fails for a stored name holding a NUL byte: with the three
byte name `x`,NUL,`y` registered, a request on the topic `x`,NUL,`z` followed by the
request suffix invokes the handler of that entry although its stored name bytes differ
from the leading bytes of the topic, so that no entry is selected in the sense of the
claim. -/
theorem cb_invokes_entry_with_other_bytes :
    ¬ (∀ c ∈ handler_calls (_service_request_received_cb cfg0 handlers0 envOk ctxXY 42
          (nameXZ ++ cfg0.BM_SERVICE_REQ_STR) 7 req7 9).trace,
        ∃ e, first_bytes_match (nameXZ ++ cfg0.BM_SERVICE_REQ_STR) ctxXY.service_list =
            some e ∧
          c.handler = e.service_handler) := by
  intro h
  obtain ⟨e, he, _⟩ := h
    (call_record handlers0 req7 240
      { service := nameXY, service_strlen := 3, service_handler := 1 })
    (by decide)
  have hnone : first_bytes_match (nameXZ ++ cfg0.BM_SERVICE_REQ_STR) ctxXY.service_list =
      none := by decide
  rw [hnone] at he
  exact Option.noConfusion he

/-! ## Content of the published reply -/

/-- Claim C11: whenever a request is dispatched to a handler that returns true and the
reply topic buffer is allocated, the callback makes exactly one `bm_pub_wl` call: on the
matched service name followed by the reply suffix, with topic length name length plus
reply suffix length, target node id equal to the node id delivered by the transport,
request id echoed from the request header, reply data size equal to the length the
handler reported, and as payload the bytes the handler left in the reply data region.
For `led` with the echo handler, the request with id 7, data size 1 and payload `[1]`
from node 42 yields exactly one publish with header fields 42, 7, 1 and payload `[1]`. -/
theorem cb_publish_content (cfg : BmServiceConfig) (handlers : Nat → BmServiceHandler)
    (env : Env) (ctx : BmServiceContext) (node_id : Nat) (topic : List Nat)
    (topic_len : Nat) (data : BmServiceRequestDataHeader) (data_len : Nat)
    (c : CallRecord)
    (hc : c ∈ handler_calls (_service_request_received_cb cfg handlers env ctx node_id
      topic topic_len data data_len).trace)
    (hok : c.ret.rval = true) (hpub : env.bm_malloc_pub_topic = true) :
    (∃ p e, published (_service_request_received_cb cfg handlers env ctx node_id topic
        topic_len data data_len).trace = [p] ∧
      first_strncmp_match topic ctx.service_list = some e ∧
      c.service = e.service ∧ c.service_strlen = e.service_strlen ∧
      p.topic = memcpy e.service e.service_strlen ++
        memcpy cfg.BM_SERVICE_REP_STR (strlen cfg.BM_SERVICE_REP_STR) ∧
      p.topic_len = e.service_strlen + strlen cfg.BM_SERVICE_REP_STR ∧
      p.topic.length = p.topic_len ∧
      p.target_node_id = node_id ∧ p.id = data.id ∧
      p.data_size = c.ret.reply_len ∧
      p.data = memcpy c.ret.reply_data c.ret.reply_len ∧
      p.len = c.ret.reply_len + cfg.sizeof_BmServiceReplyDataHeader) ∧
    published (_service_request_received_cb cfg0 handlers0 envOk ctxLed 42
      (led ++ cfg0.BM_SERVICE_REQ_STR) 7 req7 9).trace =
      [{ topic := led ++ cfg0.BM_SERVICE_REP_STR, topic_len := 7, target_node_id := 42,
         id := 7, data_size := 1, data := [1], len := 17, msg_type := 0,
         version := cfg0.BM_COMMON_PUB_SUB_VERSION }] := by
  refine ⟨?_, by decide⟩
  rcases cb_cases cfg handlers env ctx node_id topic topic_len data data_len with h | h
  · rw [h.1] at hc
    simp at hc
  · obtain ⟨e, hfind, _, _, _, _, hcalls, hpubs⟩ := h
    rw [hcalls, List.mem_singleton] at hc
    subst hc
    rw [hpubs]
    simp only [hok, hpub, and_self, if_true]
    refine ⟨_, e, rfl, hfind, rfl, rfl, rfl, rfl, ?_, rfl, rfl, rfl, rfl, rfl⟩
    simp [pub_record, memcpy_length]

/-- Witness of `cb_publish_content`: the echo handler of `led`, one payload byte. -/
theorem cb_publish_content_witness :
    (∃ p e, published (_service_request_received_cb cfg0 handlers0 envOk ctxLed 42
        (led ++ cfg0.BM_SERVICE_REQ_STR) 7 req7 9).trace = [p] ∧
      first_strncmp_match (led ++ cfg0.BM_SERVICE_REQ_STR) ctxLed.service_list = some e ∧
      led = e.service ∧ 3 = e.service_strlen ∧
      p.topic = memcpy e.service e.service_strlen ++
        memcpy cfg0.BM_SERVICE_REP_STR (strlen cfg0.BM_SERVICE_REP_STR) ∧
      p.topic_len = e.service_strlen + strlen cfg0.BM_SERVICE_REP_STR ∧
      p.topic.length = p.topic_len ∧
      p.target_node_id = 42 ∧ p.id = req7.id ∧
      p.data_size = 1 ∧
      p.data = memcpy [1] 1 ∧
      p.len = 1 + cfg0.sizeof_BmServiceReplyDataHeader) ∧
    published (_service_request_received_cb cfg0 handlers0 envOk ctxLed 42
      (led ++ cfg0.BM_SERVICE_REQ_STR) 7 req7 9).trace =
      [{ topic := led ++ cfg0.BM_SERVICE_REP_STR, topic_len := 7, target_node_id := 42,
         id := 7, data_size := 1, data := [1], len := 17, msg_type := 0,
         version := cfg0.BM_COMMON_PUB_SUB_VERSION }] :=
  cb_publish_content cfg0 handlers0 envOk ctxLed 42 (led ++ cfg0.BM_SERVICE_REQ_STR) 7
    req7 9
    (call_record handlers0 req7 240
      { service := led, service_strlen := 3, service_handler := 1 })
    (by decide) (by decide) (by decide)

/-! ## Lock timeout -/

/-- Claim C12: when `bm_semaphore_take` times out, `bm_service_register` and
`bm_service_unregister` return false, leave the context unchanged and issue neither a
subscribe nor an unsubscribe, and the dispatch callback invokes no handler, publishes
nothing and leaves the context unchanged, for every registry state and every
argument. -/
theorem lock_timeout_no_effect (cfg : BmServiceConfig) (handlers : Nat → BmServiceHandler)
    (env : Env) (ctx : BmServiceContext) (service_strlen : Nat)
    (service : Option (List Nat)) (service_handler : Nat) (node_id : Nat)
    (topic : List Nat) (topic_len : Nat) (data : BmServiceRequestDataHeader)
    (data_len : Nat) (htimeout : env.bm_semaphore_take = false) :
    ((bm_service_register cfg env ctx service_strlen service service_handler).rval = false ∧
      (bm_service_register cfg env ctx service_strlen service service_handler).ctx = ctx ∧
      subscribes (bm_service_register cfg env ctx service_strlen service
        service_handler).trace = [] ∧
      unsubscribes (bm_service_register cfg env ctx service_strlen service
        service_handler).trace = []) ∧
    ((bm_service_unregister cfg env ctx service_strlen service).rval = false ∧
      (bm_service_unregister cfg env ctx service_strlen service).ctx = ctx ∧
      subscribes (bm_service_unregister cfg env ctx service_strlen service).trace = [] ∧
      unsubscribes (bm_service_unregister cfg env ctx service_strlen service).trace = []) ∧
    (handler_calls (_service_request_received_cb cfg handlers env ctx node_id topic
        topic_len data data_len).trace = [] ∧
      published (_service_request_received_cb cfg handlers env ctx node_id topic
        topic_len data data_len).trace = [] ∧
      (_service_request_received_cb cfg handlers env ctx node_id topic topic_len data
        data_len).ctx = ctx ∧
      (_service_request_received_cb cfg handlers env ctx node_id topic topic_len data
        data_len).returned = true) := by
  refine ⟨?_, ?_, ?_⟩
  · cases service with
    | none => simp [bm_service_register, subscribes, unsubscribes]
    | some s =>
      by_cases h0 : service_handler = 0
      · simp [bm_service_register, subscribes, unsubscribes, h0]
      · simp [bm_service_register, subscribes, unsubscribes, h0, htimeout]
  · cases service with
    | none => simp [bm_service_unregister, subscribes, unsubscribes]
    | some s => simp [bm_service_unregister, subscribes, unsubscribes, htimeout]
  · simp [_service_request_received_cb, handler_calls, published, htimeout]

/-- Witness of `lock_timeout_no_effect`: `led` is registered, every call times out. -/
theorem lock_timeout_no_effect_witness :
    ((bm_service_register cfg0 envTimeout ctxLed 3 (some fan) 3).rval = false ∧
      (bm_service_register cfg0 envTimeout ctxLed 3 (some fan) 3).ctx = ctxLed ∧
      subscribes (bm_service_register cfg0 envTimeout ctxLed 3 (some fan) 3).trace = [] ∧
      unsubscribes (bm_service_register cfg0 envTimeout ctxLed 3 (some fan) 3).trace = []) ∧
    ((bm_service_unregister cfg0 envTimeout ctxLed 3 (some fan)).rval = false ∧
      (bm_service_unregister cfg0 envTimeout ctxLed 3 (some fan)).ctx = ctxLed ∧
      subscribes (bm_service_unregister cfg0 envTimeout ctxLed 3 (some fan)).trace = [] ∧
      unsubscribes (bm_service_unregister cfg0 envTimeout ctxLed 3 (some fan)).trace = []) ∧
    (handler_calls (_service_request_received_cb cfg0 handlers0 envTimeout ctxLed 42
        (led ++ cfg0.BM_SERVICE_REQ_STR) 7 req7 9).trace = [] ∧
      published (_service_request_received_cb cfg0 handlers0 envTimeout ctxLed 42
        (led ++ cfg0.BM_SERVICE_REQ_STR) 7 req7 9).trace = [] ∧
      (_service_request_received_cb cfg0 handlers0 envTimeout ctxLed 42
        (led ++ cfg0.BM_SERVICE_REQ_STR) 7 req7 9).ctx = ctxLed ∧
      (_service_request_received_cb cfg0 handlers0 envTimeout ctxLed 42
        (led ++ cfg0.BM_SERVICE_REQ_STR) 7 req7 9).returned = true) :=
  lock_timeout_no_effect cfg0 handlers0 envTimeout ctxLed 3 (some fan) 3 42
    (led ++ cfg0.BM_SERVICE_REQ_STR) 7 req7 9 rfl

/-! ## Registration order -/

/-- Claim C13: whenever `bm_service_register` returns true for a name, length and
handler, the registry afterwards is the previous list followed by exactly one new entry
holding that name, length and handler: the existing entries keep their content and
position, and the dispatch scan tries them, in the same order, before the new entry. -/
theorem register_appends_at_tail (cfg : BmServiceConfig) (env : Env)
    (ctx : BmServiceContext) (service_strlen : Nat) (service : List Nat)
    (service_handler : Nat)
    (hr : (bm_service_register cfg env ctx service_strlen (some service)
      service_handler).rval = true) :
    (bm_service_register cfg env ctx service_strlen (some service)
      service_handler).ctx.service_list =
      ctx.service_list ++
        [{ service := service, service_strlen := service_strlen,
           service_handler := service_handler }] ∧
    (∀ i, i < ctx.service_list.length →
      (bm_service_register cfg env ctx service_strlen (some service)
        service_handler).ctx.service_list[i]? = ctx.service_list[i]?) ∧
    (∀ topic : List Nat,
      first_strncmp_match topic
        (bm_service_register cfg env ctx service_strlen (some service)
          service_handler).ctx.service_list =
      (first_strncmp_match topic ctx.service_list).or
        (first_strncmp_match topic
          [{ service := service, service_strlen := service_strlen,
             service_handler := service_handler }])) := by
  have hl := register_true_list cfg env ctx service_strlen service service_handler hr
  refine ⟨hl, ?_, ?_⟩
  · intro i hi
    rw [hl, List.getElem?_append_left hi]
  · intro topic
    rw [hl]
    simp [first_strncmp_match, List.find?_append]

/-- Witness of `register_appends_at_tail`: `fan` registered after `led`. -/
theorem register_appends_at_tail_witness :
    (bm_service_register cfg0 envOk ctxLed 3 (some fan) 3).ctx.service_list =
      ctxLed.service_list ++
        [{ service := fan, service_strlen := 3, service_handler := 3 }] ∧
    (∀ i, i < ctxLed.service_list.length →
      (bm_service_register cfg0 envOk ctxLed 3 (some fan) 3).ctx.service_list[i]? =
        ctxLed.service_list[i]?) ∧
    (∀ topic : List Nat,
      first_strncmp_match topic
        (bm_service_register cfg0 envOk ctxLed 3 (some fan) 3).ctx.service_list =
      (first_strncmp_match topic ctxLed.service_list).or
        (first_strncmp_match topic
          [{ service := fan, service_strlen := 3, service_handler := 3 }])) :=
  register_appends_at_tail cfg0 envOk ctxLed 3 fan 3 (by decide)

/-! ## Serial schedules of two callers -/

/-- Claim C14 fails on the code already for the schedule in which one caller finishes
before the other takes the lock: the first registers `led` and has its subscription
rejected (the call returns false), the second registers `fan` successfully; the registry
then holds `led` and `fan`, although the last operation on `led` was not a successful
register. -/
theorem serial_schedule_keeps_failed_registration :
    (bm_service_register cfg0 envSubFail ctx0 3 (some led) 1).rval = false ∧
    (bm_service_register cfg0 envOk
      (bm_service_register cfg0 envSubFail ctx0 3 (some led) 1).ctx
      3 (some fan) 3).rval = true ∧
    (bm_service_register cfg0 envOk
      (bm_service_register cfg0 envSubFail ctx0 3 (some led) 1).ctx
      3 (some fan) 3).ctx.service_list =
      [{ service := led, service_strlen := 3, service_handler := 1 },
       { service := fan, service_strlen := 3, service_handler := 3 }] ∧
    registered led 3
      (bm_service_register cfg0 envOk
        (bm_service_register cfg0 envSubFail ctx0 3 (some led) 1).ctx
        3 (some fan) 3).ctx.service_list = true := by
  decide

/-! ## Topic length validation -/

/-- Claim C15, as amended: for every registry and inbound message, if the first entry
whose stored name bytes equal the leading bytes of the topic has a name length plus
request suffix length, added in `size_t`, different from the topic length, and the
entries before it hold no NUL byte within their stored length, the dispatch callback
invokes no handler and publishes nothing, whatever entries follow.  In particular, with
`led` registered before `ledger`, a well-formed request on the request topic of
`ledger`, which the `ledger` entry matches with the right length, invokes neither
handler. -/
theorem cb_topic_len_mismatch_drops (cfg : BmServiceConfig)
    (handlers : Nat → BmServiceHandler) (env : Env) (ctx : BmServiceContext)
    (node_id : Nat) (topic : List Nat) (topic_len : Nat)
    (data : BmServiceRequestDataHeader) (data_len : Nat) :
    (∀ (before : List BmServiceListElem) (e : BmServiceListElem)
        (after : List BmServiceListElem),
      ctx.service_list = before ++ e :: after →
      (∀ x ∈ before,
        memcpy x.service x.service_strlen ≠ memcpy topic x.service_strlen) →
      memcpy e.service e.service_strlen = memcpy topic e.service_strlen →
      (∀ x ∈ before, 0 ∉ memcpy x.service x.service_strlen) →
      to_size_t cfg (e.service_strlen + strlen cfg.BM_SERVICE_REQ_STR) ≠
        to_size_t cfg topic_len →
      handler_calls (_service_request_received_cb cfg handlers env ctx node_id topic
        topic_len data data_len).trace = [] ∧
      published (_service_request_received_cb cfg handlers env ctx node_id topic
        topic_len data data_len).trace = []) ∧
    (strncmp ledger (ledger ++ cfg0.BM_SERVICE_REQ_STR) 6 = 0 ∧
      10 = 6 + strlen cfg0.BM_SERVICE_REQ_STR ∧
      handler_calls (_service_request_received_cb cfg0 handlers0 envOk ctxLedThenLedger
        42 (ledger ++ cfg0.BM_SERVICE_REQ_STR) 10 req7 9).trace = [] ∧
      published (_service_request_received_cb cfg0 handlers0 envOk ctxLedThenLedger
        42 (ledger ++ cfg0.BM_SERVICE_REQ_STR) 10 req7 9).trace = []) := by
  refine ⟨?_, by decide⟩
  intro before e after hl hbefore he hnul hlen
  rcases cb_cases cfg handlers env ctx node_id topic topic_len data data_len with h | h
  · exact h
  · obtain ⟨e2, hfind, _, _, htl, _, _, _⟩ := h
    rw [hl, find_strncmp_of_first_bytes topic before e after hbefore he hnul] at hfind
    cases hfind
    exact absurd htl.symm hlen

/-- Witness of `cb_topic_len_mismatch_drops`: `led` before `ledger`, request on the
request topic of `ledger`; the first entry whose bytes lead the topic is `led`, no
entry precedes it, and 3 + 4 differs from the topic length 10. -/
theorem cb_topic_len_mismatch_drops_witness :
    handler_calls (_service_request_received_cb cfg0 handlers0 envOk ctxLedThenLedger
      42 (ledger ++ cfg0.BM_SERVICE_REQ_STR) 10 req7 9).trace = [] ∧
    published (_service_request_received_cb cfg0 handlers0 envOk ctxLedThenLedger
      42 (ledger ++ cfg0.BM_SERVICE_REQ_STR) 10 req7 9).trace = [] :=
  (cb_topic_len_mismatch_drops cfg0 handlers0 envOk ctxLedThenLedger 42
    (ledger ++ cfg0.BM_SERVICE_REQ_STR) 10 req7 9).1 []
    { service := led, service_strlen := 3, service_handler := 1 }
    [{ service := ledger, service_strlen := 6, service_handler := 3 }]
    rfl (by decide) (by decide) (by decide) (by decide)

/-- Claim C15 as stated fails in two ways.  With `x`,NUL,`y` (3 bytes) registered
before `x`,NUL,`z`,`/` (4 bytes), the first entry whose bytes lead the topic
`x`,NUL,`z`,`/req` of length 7 is the second one, and 4 + 4 differs from 7; yet the
handler of the first entry runs, because `strncmp` stops at the common NUL and 3 + 4
is 7.  With the empty string registered with length `SIZE_MAX - 3`, the empty topic of
length 0 has its leading bytes equal to the stored ones and `SIZE_MAX - 3 + 4` differs
from 0; yet the handler runs, because the `size_t` sum wraps to 0. -/
theorem cb_topic_len_mismatch_still_invokes :
    ¬ (∀ e : BmServiceListElem,
        first_bytes_match (nameXZSlash ++ [114, 101, 113])
          ctxXYThenXZSlash.service_list = some e →
        e.service_strlen + strlen cfg0.BM_SERVICE_REQ_STR ≠ 7 →
        handler_calls (_service_request_received_cb cfg0 handlers0 envOk
          ctxXYThenXZSlash 42 (nameXZSlash ++ [114, 101, 113]) 7 req7 9).trace = [] ∧
        published (_service_request_received_cb cfg0 handlers0 envOk
          ctxXYThenXZSlash 42 (nameXZSlash ++ [114, 101, 113]) 7 req7 9).trace = []) ∧
    ¬ (∀ e : BmServiceListElem,
        first_bytes_match [] ctxWrap.service_list = some e →
        e.service_strlen + strlen cfg0.BM_SERVICE_REQ_STR ≠ 0 →
        handler_calls (_service_request_received_cb cfg0 handlers0 envOk ctxWrap 42 []
          0 req7 9).trace = [] ∧
        published (_service_request_received_cb cfg0 handlers0 envOk ctxWrap 42 []
          0 req7 9).trace = []) := by
  refine ⟨?_, ?_⟩
  · intro h
    have h2 := (h { service := nameXZSlash, service_strlen := 4, service_handler := 3 }
      (by decide) (by decide)).1
    revert h2
    decide
  · intro h
    have hm : first_bytes_match [] ctxWrap.service_list =
        some { service := [], service_strlen := 4294967292, service_handler := 1 } := by
      simp [first_bytes_match, ctxWrap]
    have h2 := (h _ hm (by decide)).1
    have hs : strncmp [] [] (4294967291 + 1) = 0 := by
      rw [strncmp_succ_eq_zero]
      exact ⟨rfl, Or.inl rfl⟩
    have hc : handler_calls (_service_request_received_cb cfg0 handlers0 envOk ctxWrap
        42 [] 0 req7 9).trace ≠ [] := by
      rw [cb_trace_calls]
      simp [envOk, ctxWrap, _service_request_received_cb_loop, hs,
        _service_request_received_cb_found, req7, cfg0, to_size_t, strlen,
        handler_calls, call_record, handlers0, echoHandler]
    exact hc h2

/-! ## Unregistration -/

theorem remove_service_eq (service : List Nat) (service_strlen : Nat)
    (l : List BmServiceListElem) :
    _service_list_remove_service (some service) service_strlen l =
      (l.any (fun e => decide (strncmp e.service service service_strlen = 0)),
       erase_first_match service service_strlen l) := by
  unfold erase_first_match
  induction l with
  | nil => simp [_service_list_remove_service]
  | cons x xs ih =>
    by_cases h : strncmp x.service service service_strlen = 0
    · simp [_service_list_remove_service, h]
    · simp [_service_list_remove_service, h, ih]

theorem unregister_rval (cfg : BmServiceConfig) (env : Env) (ctx : BmServiceContext)
    (service_strlen : Nat) (service : List Nat) :
    (bm_service_unregister cfg env ctx service_strlen (some service)).rval =
      (env.bm_semaphore_take && (env.bm_malloc_topic_str && env.bm_unsub_wl) &&
        ctx.service_list.any
          (fun e => decide (strncmp e.service service service_strlen = 0))) := by
  unfold bm_service_unregister _service_sub_unsub_to_req_topic
  cases env.bm_semaphore_take <;> cases env.bm_malloc_topic_str <;>
    cases env.bm_unsub_wl <;> simp [remove_service_eq]

theorem unregister_list (cfg : BmServiceConfig) (env : Env) (ctx : BmServiceContext)
    (service_strlen : Nat) (service : List Nat) :
    (bm_service_unregister cfg env ctx service_strlen (some service)).ctx.service_list =
      if env.bm_semaphore_take = true ∧ env.bm_malloc_topic_str = true ∧
          env.bm_unsub_wl = true then
        erase_first_match service service_strlen ctx.service_list
      else ctx.service_list := by
  unfold bm_service_unregister _service_sub_unsub_to_req_topic
  cases env.bm_semaphore_take <;> cases env.bm_malloc_topic_str <;>
    cases env.bm_unsub_wl <;> simp [remove_service_eq]

theorem memcpy_eq_of_strncmp_eq_zero_right (n : Nat) (s t : List Nat)
    (hnul : 0 ∉ memcpy t n) (h : strncmp s t n = 0) : memcpy s n = memcpy t n := by
  induction n generalizing s t with
  | zero => simp [memcpy]
  | succ n ih =>
    simp only [memcpy, List.mem_cons, not_or] at hnul
    rw [strncmp_succ_eq_zero] at h
    obtain ⟨hh, ht⟩ := h
    have ht2 : strncmp s.tail t.tail n = 0 := by
      rcases ht with h0 | ht
      · exact absurd (hh ▸ h0).symm hnul.1
      · exact ht
    simp only [memcpy, List.cons.injEq]
    exact ⟨hh, ih _ _ hnul.2 ht2⟩

theorem strncmp_probe_iff (n : Nat) (s probe : List Nat) (hnul : 0 ∉ memcpy probe n) :
    strncmp s probe n = 0 ↔ memcpy s n = memcpy probe n :=
  ⟨memcpy_eq_of_strncmp_eq_zero_right n s probe hnul, strncmp_eq_zero_of_memcpy_eq n s probe⟩

theorem unregister_strncmp_spec (cfg : BmServiceConfig) (env : Env)
    (ctx : BmServiceContext) (service_strlen : Nat) (service : List Nat) :
    ((bm_service_unregister cfg env ctx service_strlen (some service)).rval = true ↔
      env.bm_semaphore_take = true ∧
      (env.bm_malloc_topic_str = true ∧ env.bm_unsub_wl = true) ∧
      ∃ e ∈ ctx.service_list, strncmp e.service service service_strlen = 0) ∧
    ((bm_service_unregister cfg env ctx service_strlen (some service)).rval = true →
      ∃ before e after,
        ctx.service_list = before ++ e :: after ∧
        (∀ x ∈ before, strncmp x.service service service_strlen ≠ 0) ∧
        strncmp e.service service service_strlen = 0 ∧
        (bm_service_unregister cfg env ctx service_strlen
          (some service)).ctx.service_list = before ++ after) ∧
    ((bm_service_unregister cfg env ctx service_strlen (some service)).rval = false →
      (bm_service_unregister cfg env ctx service_strlen
        (some service)).ctx.service_list = ctx.service_list) := by
  have hiff : (bm_service_unregister cfg env ctx service_strlen (some service)).rval =
      true ↔
      env.bm_semaphore_take = true ∧
      (env.bm_malloc_topic_str = true ∧ env.bm_unsub_wl = true) ∧
      ∃ e ∈ ctx.service_list, strncmp e.service service service_strlen = 0 := by
    rw [unregister_rval]
    simp [and_assoc]
  refine ⟨hiff, ?_, ?_⟩
  · intro hr
    obtain ⟨ht, ⟨hm, hu⟩, e, he, hmatch⟩ := hiff.mp hr
    rw [unregister_list]
    simp only [ht, hm, hu, and_self, if_true]
    obtain ⟨a, l1, l2, hno, ha, hl, herase⟩ :=
      List.exists_of_eraseP
        (p := fun e => decide (strncmp e.service service service_strlen = 0)) he
        (by simpa using hmatch)
    refine ⟨l1, a, l2, hl, ?_, by simpa using ha, herase⟩
    intro x hx
    simpa using hno x hx
  · intro hr
    rw [unregister_list]
    by_cases hc : env.bm_semaphore_take = true ∧ env.bm_malloc_topic_str = true ∧
        env.bm_unsub_wl = true
    · simp only [hc, and_self, if_true]
      have hnone : ¬ ∃ e ∈ ctx.service_list,
          strncmp e.service service service_strlen = 0 := by
        intro hex
        have := hiff.mpr ⟨hc.1, hc.2, hex⟩
        rw [hr] at this
        exact Bool.noConfusion this
      unfold erase_first_match
      apply List.eraseP_of_forall_not
      intro a ha hp
      exact hnone ⟨a, ha, by simpa using hp⟩
    · simp only [hc, if_false]

/-- Claim C16, as amended: for every registry list and every probe that holds no NUL
byte within its length, `bm_service_unregister` returns true exactly when the lock is
acquired, the unsubscribe succeeds (topic buffer allocated and `bm_unsub_wl` accepted)
and the bytes of some entry equal the bytes of the probe over the probe length; when it
returns true the resulting list is the old list with exactly the first such entry
deleted and all other entries kept in order.  For every probe, when it returns false
the list is unchanged. -/
theorem unregister_true_iff_and_list (cfg : BmServiceConfig) (env : Env)
    (ctx : BmServiceContext) (service_strlen : Nat) (service : List Nat) :
    (0 ∉ memcpy service service_strlen →
      ((bm_service_unregister cfg env ctx service_strlen (some service)).rval = true ↔
        env.bm_semaphore_take = true ∧
        (env.bm_malloc_topic_str = true ∧ env.bm_unsub_wl = true) ∧
        ∃ e ∈ ctx.service_list,
          memcpy e.service service_strlen = memcpy service service_strlen) ∧
      ((bm_service_unregister cfg env ctx service_strlen (some service)).rval = true →
        ∃ before e after,
          ctx.service_list = before ++ e :: after ∧
          (∀ x ∈ before,
            memcpy x.service service_strlen ≠ memcpy service service_strlen) ∧
          memcpy e.service service_strlen = memcpy service service_strlen ∧
          (bm_service_unregister cfg env ctx service_strlen
            (some service)).ctx.service_list = before ++ after)) ∧
    ((bm_service_unregister cfg env ctx service_strlen (some service)).rval = false →
      (bm_service_unregister cfg env ctx service_strlen
        (some service)).ctx.service_list = ctx.service_list) := by
  obtain ⟨hiff, htrue, hfalse⟩ :=
    unregister_strncmp_spec cfg env ctx service_strlen service
  refine ⟨?_, hfalse⟩
  intro hnul
  have hp : ∀ x : BmServiceListElem,
      strncmp x.service service service_strlen = 0 ↔
        memcpy x.service service_strlen = memcpy service service_strlen :=
    fun x => strncmp_probe_iff service_strlen x.service service hnul
  refine ⟨?_, ?_⟩
  · rw [hiff]
    constructor
    · rintro ⟨ht, hu, e, he, hm⟩
      exact ⟨ht, hu, e, he, (hp e).mp hm⟩
    · rintro ⟨ht, hu, e, he, hm⟩
      exact ⟨ht, hu, e, he, (hp e).mpr hm⟩
  · intro hr
    obtain ⟨before, e, after, hl, hno, hm, hres⟩ := htrue hr
    exact ⟨before, e, after, hl, fun x hx hc => hno x hx ((hp x).mpr hc), (hp e).mp hm,
      hres⟩

/-- Witness of `unregister_true_iff_and_list`: unregistering `led`, which holds no NUL
byte, from the registry holding `led` and `ledger` succeeds and deletes the first
entry; the same call with the lock timing out fails and leaves the list as it was. -/
theorem unregister_true_iff_and_list_witness :
    (∃ before e after,
        ctxLedThenLedger.service_list = before ++ e :: after ∧
        (∀ x ∈ before, memcpy x.service 3 ≠ memcpy led 3) ∧
        memcpy e.service 3 = memcpy led 3 ∧
        (bm_service_unregister cfg0 envOk ctxLedThenLedger 3
          (some led)).ctx.service_list = before ++ after) ∧
    (bm_service_unregister cfg0 envTimeout ctxLedThenLedger 3
      (some led)).ctx.service_list = ctxLedThenLedger.service_list :=
  ⟨((unregister_true_iff_and_list cfg0 envOk ctxLedThenLedger 3 led).1 (by decide)).2
      (by decide),
   (unregister_true_iff_and_list cfg0 envTimeout ctxLedThenLedger 3 led).2 (by decide)⟩

/-- Claim C16 as stated fails for a probe holding a NUL byte: with the three byte name
`x`,NUL,`y` registered, unregistering the probe `x`,NUL,`z` with length 3 returns true
and empties the registry, although no entry has the bytes of the probe over 3 bytes;
`strncmp` stops at the common NUL. -/
theorem unregister_matches_across_nul :
    ¬ ((bm_service_unregister cfg0 envOk ctxXY 3 (some nameXZ)).rval = true ↔
        envOk.bm_semaphore_take = true ∧
        (envOk.bm_malloc_topic_str = true ∧ envOk.bm_unsub_wl = true) ∧
        ∃ e ∈ ctxXY.service_list, memcpy e.service 3 = memcpy nameXZ 3) ∧
    (bm_service_unregister cfg0 envOk ctxXY 3 (some nameXZ)).ctx.service_list = [] := by
  decide

/-! ## Reply length and capacity -/

/-- Claim C17, as amended: for every registry, message and handler, the handler the
dispatch callback invokes is given the capacity
`MAX_BM_SERVICE_DATA_SIZE - sizeof(BmServiceReplyDataHeader)` through the in/out reply
length; and whenever the reply header fits the reply buffer and the invoked handler
reports a reply length within the capacity it was given, any reply the callback
publishes has total length (reply header plus payload) at most
`MAX_BM_SERVICE_DATA_SIZE`, the size of the reply buffer. -/
theorem cb_reply_within_buffer (cfg : BmServiceConfig)
    (handlers : Nat → BmServiceHandler) (env : Env) (ctx : BmServiceContext)
    (node_id : Nat) (topic : List Nat) (topic_len : Nat)
    (data : BmServiceRequestDataHeader) (data_len : Nat) :
    (∀ c ∈ handler_calls (_service_request_received_cb cfg handlers env ctx node_id
        topic topic_len data data_len).trace,
      c.buffer_len =
        cfg.MAX_BM_SERVICE_DATA_SIZE - cfg.sizeof_BmServiceReplyDataHeader) ∧
    (cfg.sizeof_BmServiceReplyDataHeader ≤ cfg.MAX_BM_SERVICE_DATA_SIZE →
      (∀ c ∈ handler_calls (_service_request_received_cb cfg handlers env ctx node_id
        topic topic_len data data_len).trace, c.ret.reply_len ≤ c.buffer_len) →
      ∀ p ∈ published (_service_request_received_cb cfg handlers env ctx node_id topic
        topic_len data data_len).trace,
      p.len = p.data_size + cfg.sizeof_BmServiceReplyDataHeader ∧
      p.len ≤ cfg.MAX_BM_SERVICE_DATA_SIZE) := by
  rcases cb_cases cfg handlers env ctx node_id topic topic_len data data_len with h | h
  · rw [h.1, h.2]
    simp
  · obtain ⟨e, _, _, _, _, _, hcalls, hpubs⟩ := h
    rw [hcalls]
    refine ⟨?_, ?_⟩
    · intro c hc
      rw [List.mem_singleton] at hc
      rw [hc]
      rfl
    · intro hfit hcontract p hp
      have hle := hcontract _ (List.mem_singleton.mpr rfl)
      have hle2 : (call_record handlers data
          (cfg.MAX_BM_SERVICE_DATA_SIZE - cfg.sizeof_BmServiceReplyDataHeader)
          e).ret.reply_len ≤
          cfg.MAX_BM_SERVICE_DATA_SIZE - cfg.sizeof_BmServiceReplyDataHeader := hle
      rw [hpubs] at hp
      split at hp
      · rw [List.mem_singleton] at hp
        subst hp
        refine ⟨rfl, ?_⟩
        simp only [pub_record]
        omega
      · simp at hp

/-- Witness of `cb_reply_within_buffer`: the echo handler of `led` reports one byte
for the capacity 240, and the published reply has 17 of 256 bytes. -/
theorem cb_reply_within_buffer_witness :
    ∀ p ∈ published (_service_request_received_cb cfg0 handlers0 envOk ctxLed 42
        (led ++ cfg0.BM_SERVICE_REQ_STR) 7 req7 9).trace,
      p.len = p.data_size + cfg0.sizeof_BmServiceReplyDataHeader ∧
      p.len ≤ cfg0.MAX_BM_SERVICE_DATA_SIZE :=
  (cb_reply_within_buffer cfg0 handlers0 envOk ctxLed 42 (led ++ cfg0.BM_SERVICE_REQ_STR)
    7 req7 9).2 (by decide) (by decide)

/-- Claim C17 as stated fails for a handler that reports more than its capacity: with
`led` served by a handler that returns true and sets the reply length to 241 when given
the capacity 240, the callback publishes a reply of total length 257, beyond the 256
byte reply buffer. -/
theorem cb_publishes_beyond_buffer :
    ¬ (∀ p ∈ published (_service_request_received_cb cfg0 handlersOver envOk ctxLedOver
          42 (led ++ cfg0.BM_SERVICE_REQ_STR) 7 req7 9).trace,
        p.len ≤ cfg0.MAX_BM_SERVICE_DATA_SIZE) := by
  decide

/-! ## Lock discipline -/

theorem found_no_lock_events (cfg : BmServiceConfig) (handlers : Nat → BmServiceHandler)
    (env : Env) (node_id topic_len : Nat) (data : BmServiceRequestDataHeader)
    (data_len : Nat) (e : BmServiceListElem) :
    lock_gives (_service_request_received_cb_found cfg handlers env node_id topic_len
      data data_len e).1 = 0 ∧
    lock_takes (_service_request_received_cb_found cfg handlers env node_id topic_len
      data data_len e).1 = [] := by
  unfold _service_request_received_cb_found
  by_cases hr : (call_record handlers data
      (cfg.MAX_BM_SERVICE_DATA_SIZE - cfg.sizeof_BmServiceReplyDataHeader) e).ret.rval =
      true
  · split_ifs <;> simp [lock_gives, lock_takes, hr]
  · split_ifs <;> simp [lock_gives, lock_takes, hr]

theorem loop_no_lock_events (cfg : BmServiceConfig) (handlers : Nat → BmServiceHandler)
    (env : Env) (node_id : Nat) (topic : List Nat) (topic_len : Nat)
    (data : BmServiceRequestDataHeader) (data_len : Nat) (l : List BmServiceListElem) :
    lock_gives (_service_request_received_cb_loop cfg handlers env node_id topic
      topic_len data data_len l).1 = 0 ∧
    lock_takes (_service_request_received_cb_loop cfg handlers env node_id topic
      topic_len data data_len l).1 = [] := by
  rw [loop_eq_find]
  cases l.find? (fun e => decide (strncmp e.service topic e.service_strlen = 0)) with
  | none => simp [lock_gives, lock_takes]
  | some e => exact found_no_lock_events cfg handlers env node_id topic_len data data_len e

theorem sub_unsub_no_lock_events (cfg : BmServiceConfig) (env : Env)
    (service_strlen : Nat) (service : List Nat) (sub : Bool) :
    lock_gives (_service_sub_unsub_to_req_topic cfg env service_strlen service sub).2 = 0 ∧
    lock_takes (_service_sub_unsub_to_req_topic cfg env service_strlen service sub).2 =
      [] := by
  unfold _service_sub_unsub_to_req_topic
  split_ifs <;> simp [lock_gives, lock_takes]

theorem register_lock (cfg : BmServiceConfig) (env : Env) (ctx : BmServiceContext)
    (service_strlen : Nat) (service : Option (List Nat)) (service_handler : Nat) :
    (true ∈ lock_takes (bm_service_register cfg env ctx service_strlen service
        service_handler).trace →
      (bm_service_register cfg env ctx service_strlen service
        service_handler).ctx.lock_taken = false) ∧
    (ctx.lock_taken = false →
      (bm_service_register cfg env ctx service_strlen service
        service_handler).ctx.lock_taken = false) ∧
    lock_gives (bm_service_register cfg env ctx service_strlen service
        service_handler).trace =
      (lock_takes (bm_service_register cfg env ctx service_strlen service
        service_handler).trace).count true := by
  have hs := sub_unsub_no_lock_events cfg env service_strlen
  simp only [lock_gives, lock_takes] at hs ⊢
  unfold bm_service_register
  cases service with
  | none => simp
  | some s =>
    by_cases h0 : service_handler = 0
    · simp [h0]
    · by_cases ht : env.bm_semaphore_take = true
      · by_cases hm : env.bm_malloc_list_elem = true
        · simp [h0, ht, hm, _service_create_list_elem, List.count_append,
            List.filterMap_append, (hs s true).1, (hs s true).2]
        · simp [h0, ht, hm, _service_create_list_elem]
      · simp [h0, ht]

theorem unregister_lock (cfg : BmServiceConfig) (env : Env) (ctx : BmServiceContext)
    (service_strlen : Nat) (service : Option (List Nat)) :
    (true ∈ lock_takes (bm_service_unregister cfg env ctx service_strlen service).trace →
      (bm_service_unregister cfg env ctx service_strlen service).ctx.lock_taken = false) ∧
    (ctx.lock_taken = false →
      (bm_service_unregister cfg env ctx service_strlen service).ctx.lock_taken = false) ∧
    lock_gives (bm_service_unregister cfg env ctx service_strlen service).trace =
      (lock_takes (bm_service_unregister cfg env ctx service_strlen service).trace).count
        true := by
  have hs := sub_unsub_no_lock_events cfg env service_strlen
  simp only [lock_gives, lock_takes] at hs ⊢
  unfold bm_service_unregister
  cases service with
  | none => simp
  | some s =>
    by_cases ht : env.bm_semaphore_take = true
    · by_cases hr : (_service_sub_unsub_to_req_topic cfg env service_strlen s false).1 =
          true
      · simp [ht, hr, List.count_append, List.filterMap_append, (hs s false).1,
          (hs s false).2]
      · simp [ht, hr, List.count_append, List.filterMap_append, (hs s false).1,
          (hs s false).2]
    · simp [ht]

theorem cb_lock (cfg : BmServiceConfig) (handlers : Nat → BmServiceHandler)
    (env : Env) (ctx : BmServiceContext) (node_id : Nat) (topic : List Nat)
    (topic_len : Nat) (data : BmServiceRequestDataHeader) (data_len : Nat)
    (hret : (_service_request_received_cb cfg handlers env ctx node_id topic topic_len
      data data_len).returned = true) :
    (true ∈ lock_takes (_service_request_received_cb cfg handlers env ctx node_id topic
        topic_len data data_len).trace →
      (_service_request_received_cb cfg handlers env ctx node_id topic topic_len data
        data_len).ctx.lock_taken = false) ∧
    (ctx.lock_taken = false →
      (_service_request_received_cb cfg handlers env ctx node_id topic topic_len data
        data_len).ctx.lock_taken = false) ∧
    lock_gives (_service_request_received_cb cfg handlers env ctx node_id topic
        topic_len data data_len).trace =
      (lock_takes (_service_request_received_cb cfg handlers env ctx node_id topic
        topic_len data data_len).trace).count true := by
  have hl := loop_no_lock_events cfg handlers env node_id topic topic_len data data_len
    ctx.service_list
  simp only [lock_gives, lock_takes] at hl ⊢
  unfold _service_request_received_cb at hret ⊢
  by_cases ht : env.bm_semaphore_take = true
  · by_cases hr : (_service_request_received_cb_loop cfg handlers env node_id topic
        topic_len data data_len ctx.service_list).2 = true
    · simp [ht, hr, List.count_append, List.filterMap_append, hl.1, hl.2]
    · simp [ht, hr] at hret
  · simp [ht]

/-- On the paths that return: after `bm_service_register`, `bm_service_unregister` or the
dispatch callback has returned, the lock is released if the operation took it, a lock
that was free before the call is free after it, and the trace holds as many
`bm_semaphore_give` calls as successful `bm_semaphore_take` calls. -/
theorem lock_released_on_return (cfg : BmServiceConfig)
    (handlers : Nat → BmServiceHandler) (env : Env) (ctx : BmServiceContext)
    (service_strlen : Nat) (service : Option (List Nat)) (service_handler : Nat)
    (node_id : Nat) (topic : List Nat) (topic_len : Nat)
    (data : BmServiceRequestDataHeader) (data_len : Nat) :
    ((true ∈ lock_takes (bm_service_register cfg env ctx service_strlen service
          service_handler).trace →
        (bm_service_register cfg env ctx service_strlen service
          service_handler).ctx.lock_taken = false) ∧
      (ctx.lock_taken = false →
        (bm_service_register cfg env ctx service_strlen service
          service_handler).ctx.lock_taken = false) ∧
      lock_gives (bm_service_register cfg env ctx service_strlen service
          service_handler).trace =
        (lock_takes (bm_service_register cfg env ctx service_strlen service
          service_handler).trace).count true) ∧
    ((true ∈ lock_takes (bm_service_unregister cfg env ctx service_strlen
          service).trace →
        (bm_service_unregister cfg env ctx service_strlen service).ctx.lock_taken =
          false) ∧
      (ctx.lock_taken = false →
        (bm_service_unregister cfg env ctx service_strlen service).ctx.lock_taken =
          false) ∧
      lock_gives (bm_service_unregister cfg env ctx service_strlen service).trace =
        (lock_takes (bm_service_unregister cfg env ctx service_strlen
          service).trace).count true) ∧
    ((_service_request_received_cb cfg handlers env ctx node_id topic topic_len data
        data_len).returned = true →
      (true ∈ lock_takes (_service_request_received_cb cfg handlers env ctx node_id topic
          topic_len data data_len).trace →
        (_service_request_received_cb cfg handlers env ctx node_id topic topic_len data
          data_len).ctx.lock_taken = false) ∧
      (ctx.lock_taken = false →
        (_service_request_received_cb cfg handlers env ctx node_id topic topic_len data
          data_len).ctx.lock_taken = false) ∧
      lock_gives (_service_request_received_cb cfg handlers env ctx node_id topic
          topic_len data data_len).trace =
        (lock_takes (_service_request_received_cb cfg handlers env ctx node_id topic
          topic_len data data_len).trace).count true) :=
  ⟨register_lock cfg env ctx service_strlen service service_handler,
   unregister_lock cfg env ctx service_strlen service,
   cb_lock cfg handlers env ctx node_id topic topic_len data data_len⟩

/-- Claim C18 fails on the code: with `led` registered and the lock free, a well-formed
request on its topic for which the `bm_malloc` of the reply buffer returns NULL makes
the dispatch callback take the lock and run `memset` on the NULL pointer; it never
reaches `bm_semaphore_give`, so the lock stays taken and the trace holds one successful
take and no give. -/
theorem cb_keeps_lock_on_reply_alloc_failure :
    ctxLed.lock_taken = false ∧
    (_service_request_received_cb cfg0 handlers0 envNoReplyBuf ctxLed 42
      (led ++ cfg0.BM_SERVICE_REQ_STR) 7 req7 9).trace =
      [Event.sem_take true, Event.memset_null] ∧
    (_service_request_received_cb cfg0 handlers0 envNoReplyBuf ctxLed 42
      (led ++ cfg0.BM_SERVICE_REQ_STR) 7 req7 9).returned = false ∧
    (_service_request_received_cb cfg0 handlers0 envNoReplyBuf ctxLed 42
      (led ++ cfg0.BM_SERVICE_REQ_STR) 7 req7 9).ctx.lock_taken = true ∧
    lock_takes (_service_request_received_cb cfg0 handlers0 envNoReplyBuf ctxLed 42
      (led ++ cfg0.BM_SERVICE_REQ_STR) 7 req7 9).trace = [true] ∧
    lock_gives (_service_request_received_cb cfg0 handlers0 envNoReplyBuf ctxLed 42
      (led ++ cfg0.BM_SERVICE_REQ_STR) 7 req7 9).trace = 0 := by
  decide

/-! ## The request topic -/

theorem memcpy_strlen_of_no_nul (l : List Nat) (h : 0 ∉ l) : memcpy l (strlen l) = l := by
  induction l with
  | nil => simp [strlen, memcpy]
  | cons c cs ih =>
    simp only [List.mem_cons, not_or] at h
    have hc : ¬ c = 0 := fun hc => h.1 hc.symm
    simp [strlen, memcpy, deref, hc, ih h.2]

/-- Claim C19: for every name and length `n`, each topic `bm_service_register`
subscribes and each topic `bm_service_unregister` unsubscribes is the `n` name bytes
followed by the bytes of the request suffix, nothing before, between or after them,
with reported length `n` plus the length of the request suffix; every such call passes
the dispatch callback.  When the lock is taken and the allocations succeed, each
operation makes exactly one such call, so both use the same topic for the same name and
length. -/
theorem request_topic_of_register_and_unregister (cfg : BmServiceConfig)
    (env1 env2 : Env) (ctx1 ctx2 : BmServiceContext) (service_strlen : Nat)
    (service : List Nat) (service_handler : Nat) :
    (∀ t ∈ subscribes (bm_service_register cfg env1 ctx1 service_strlen (some service)
        service_handler).trace,
      t = (memcpy service service_strlen ++
            memcpy cfg.BM_SERVICE_REQ_STR (strlen cfg.BM_SERVICE_REQ_STR),
          service_strlen + strlen cfg.BM_SERVICE_REQ_STR)) ∧
    (∀ t ∈ unsubscribes (bm_service_unregister cfg env2 ctx2 service_strlen
        (some service)).trace,
      t = (memcpy service service_strlen ++
            memcpy cfg.BM_SERVICE_REQ_STR (strlen cfg.BM_SERVICE_REQ_STR),
          service_strlen + strlen cfg.BM_SERVICE_REQ_STR)) ∧
    (memcpy service service_strlen ++
        memcpy cfg.BM_SERVICE_REQ_STR (strlen cfg.BM_SERVICE_REQ_STR)).length =
      service_strlen + strlen cfg.BM_SERVICE_REQ_STR ∧
    (0 ∉ cfg.BM_SERVICE_REQ_STR →
      memcpy service service_strlen ++
          memcpy cfg.BM_SERVICE_REQ_STR (strlen cfg.BM_SERVICE_REQ_STR) =
        memcpy service service_strlen ++ cfg.BM_SERVICE_REQ_STR) ∧
    (∀ cb ∈ transport_callbacks
        ((bm_service_register cfg env1 ctx1 service_strlen (some service)
            service_handler).trace ++
          (bm_service_unregister cfg env2 ctx2 service_strlen (some service)).trace),
      cb = BmCallback.service_request_received_cb) ∧
    (service_handler ≠ 0 → env1.bm_semaphore_take = true →
      env1.bm_malloc_list_elem = true → env1.bm_malloc_topic_str = true →
      subscribes (bm_service_register cfg env1 ctx1 service_strlen (some service)
          service_handler).trace =
        [request_topic cfg service service_strlen] ∧
      transport_callbacks (bm_service_register cfg env1 ctx1 service_strlen
          (some service) service_handler).trace =
        [BmCallback.service_request_received_cb]) ∧
    (env2.bm_semaphore_take = true → env2.bm_malloc_topic_str = true →
      unsubscribes (bm_service_unregister cfg env2 ctx2 service_strlen
          (some service)).trace =
        [request_topic cfg service service_strlen] ∧
      transport_callbacks (bm_service_unregister cfg env2 ctx2 service_strlen
          (some service)).trace =
        [BmCallback.service_request_received_cb]) := by
  refine ⟨?_, ?_, ?_, ?_, ?_, ?_, ?_⟩
  · intro t ht
    unfold bm_service_register _service_create_list_elem
      _service_sub_unsub_to_req_topic at ht
    simp only [subscribes] at ht
    split_ifs at ht <;> simp_all
  · intro t ht
    unfold bm_service_unregister _service_sub_unsub_to_req_topic at ht
    simp only [subscribes, unsubscribes] at ht
    split_ifs at ht <;> simp_all
  · simp [memcpy_length]
  · intro h
    rw [memcpy_strlen_of_no_nul _ h]
  · intro cb _
    cases cb
    rfl
  · intro h0 h1 h2 h3
    by_cases h4 : env1.bm_sub_wl = true
    · simp [bm_service_register, _service_create_list_elem,
        _service_sub_unsub_to_req_topic, subscribes, transport_callbacks, request_topic,
        h0, h1, h2, h3, h4]
    · simp [bm_service_register, _service_create_list_elem,
        _service_sub_unsub_to_req_topic, subscribes, transport_callbacks, request_topic,
        h0, h1, h2, h3, h4]
  · intro h1 h3
    by_cases h4 : env2.bm_unsub_wl = true
    · simp [bm_service_unregister, _service_sub_unsub_to_req_topic, unsubscribes,
        transport_callbacks, request_topic, h1, h3, h4]
    · simp [bm_service_unregister, _service_sub_unsub_to_req_topic, unsubscribes,
        transport_callbacks, request_topic, h1, h3, h4]

/-- Witness of `request_topic_of_register_and_unregister`: registering `led` on the
empty registry and unregistering it from the registry holding it, every external call
succeeding; the suffix `/req` holds no NUL byte. -/
theorem request_topic_of_register_and_unregister_witness :
    (memcpy led 3 ++ memcpy cfg0.BM_SERVICE_REQ_STR (strlen cfg0.BM_SERVICE_REQ_STR) =
      memcpy led 3 ++ cfg0.BM_SERVICE_REQ_STR) ∧
    (subscribes (bm_service_register cfg0 envOk ctx0 3 (some led) 1).trace =
        [request_topic cfg0 led 3] ∧
      transport_callbacks (bm_service_register cfg0 envOk ctx0 3 (some led) 1).trace =
        [BmCallback.service_request_received_cb]) ∧
    (unsubscribes (bm_service_unregister cfg0 envOk ctxLed 3 (some led)).trace =
        [request_topic cfg0 led 3] ∧
      transport_callbacks (bm_service_unregister cfg0 envOk ctxLed 3 (some led)).trace =
        [BmCallback.service_request_received_cb]) :=
  ⟨(request_topic_of_register_and_unregister cfg0 envOk envOk ctx0 ctxLed 3 led
      1).2.2.2.1 (by decide),
   (request_topic_of_register_and_unregister cfg0 envOk envOk ctx0 ctxLed 3 led
      1).2.2.2.2.2.1 (by decide) rfl rfl rfl,
   (request_topic_of_register_and_unregister cfg0 envOk envOk ctx0 ctxLed 3 led
      1).2.2.2.2.2.2 rfl rfl⟩

/-! ## The callback and the registry -/

/-- Claim C20: the dispatch callback never modifies the registry.  For every registry
list, inbound message, lock outcome, allocation outcome and handler behaviour, the list
of entries after `_service_request_received_cb` is the list before the call. -/
theorem cb_registry_unchanged (cfg : BmServiceConfig) (handlers : Nat → BmServiceHandler)
    (env : Env) (ctx : BmServiceContext) (node_id : Nat) (topic : List Nat)
    (topic_len : Nat) (data : BmServiceRequestDataHeader) (data_len : Nat) :
    (_service_request_received_cb cfg handlers env ctx node_id topic topic_len data
      data_len).ctx.service_list = ctx.service_list := by
  unfold _service_request_received_cb
  by_cases ht : env.bm_semaphore_take = true
  · by_cases hr : (_service_request_received_cb_loop cfg handlers env node_id topic
        topic_len data data_len ctx.service_list).2 = true
    · simp [ht, hr]
    · simp [ht, hr]
  · simp [ht]

end BmService
